import Mathlib

/-!
# Database builder of xapian-core (`backends/database_builder.cc`)

A shallow embedding of `DatabaseBuilder::create` and of the table
`database_strings` it resolves backend names with, followed by theorems about
them.

* The conditional compilation switches (`MUS_BUILD_BACKEND_*`) are the fields
  of `BuildConfig`.
* The file system and the backend constructors are outside the file; they are
  the two fields of `World`.
* The body of `create` is written in state-passing style over `Locals`, the
  variables of one call, extended with a trace of the file-existence checks
  and constructor calls made so far.
-/

namespace Xapian

/-! ## Data model -/

/-- Type of a database (`enum om_database_type`, lines 47-56). -/
inductive om_database_type
  | DBTYPE_NULL
  | DBTYPE_AUTO
  | DBTYPE_MUSCAT36_DA
  | DBTYPE_MUSCAT36_DB
  | DBTYPE_INMEMORY
  | DBTYPE_REMOTE
  | DBTYPE_QUARTZ
  | DBTYPE_SLEEPYCAT
  deriving DecidableEq, Repr

open om_database_type

/-- The integer value of an enumerator: they are numbered from 0 in the order
of declaration. -/
def om_database_type.code : om_database_type → Int
  | DBTYPE_NULL => 0
  | DBTYPE_AUTO => 1
  | DBTYPE_MUSCAT36_DA => 2
  | DBTYPE_MUSCAT36_DB => 3
  | DBTYPE_INMEMORY => 4
  | DBTYPE_REMOTE => 5
  | DBTYPE_QUARTZ => 6
  | DBTYPE_SLEEPYCAT => 7

/-- The conversion `static_cast<om_database_type>(int)`: the enumerator with
that value, `none` for an integer that is the value of no enumerator (the
`default:` label of a switch). -/
def static_cast (v : Int) : Option om_database_type :=
  if v = 0 then some DBTYPE_NULL
  else if v = 1 then some DBTYPE_AUTO
  else if v = 2 then some DBTYPE_MUSCAT36_DA
  else if v = 3 then some DBTYPE_MUSCAT36_DB
  else if v = 4 then some DBTYPE_INMEMORY
  else if v = 5 then some DBTYPE_REMOTE
  else if v = 6 then some DBTYPE_QUARTZ
  else if v = 7 then some DBTYPE_SLEEPYCAT
  else none

/-- Modelled from the spec: the declaration of `StringAndValue` is not in the
source file; the initialisers of `database_strings` show its two members, a
name and an integer value. -/
structure StringAndValue where
  name : String
  value : Int
  deriving DecidableEq, Repr

/-- The mapping from database type names to database type codes
(`database_strings`, lines 62-71), in the order of the source, the end marker
with the empty name included. -/
def database_strings : List StringAndValue :=
  [ ⟨"auto", DBTYPE_AUTO.code⟩,
    ⟨"da", DBTYPE_MUSCAT36_DA.code⟩,
    ⟨"db", DBTYPE_MUSCAT36_DB.code⟩,
    ⟨"inmemory", DBTYPE_INMEMORY.code⟩,
    ⟨"remote", DBTYPE_REMOTE.code⟩,
    ⟨"quartz", DBTYPE_QUARTZ.code⟩,
    ⟨"sleepycat", DBTYPE_SLEEPYCAT.code⟩,
    ⟨"", DBTYPE_NULL.code⟩ ]

/-- The real entries of a table: those before the end marker. -/
def real_entries (table : List StringAndValue) : List StringAndValue :=
  table.takeWhile (fun e => e.name ≠ "")

/-- The names of the real entries, in table order. -/
def entry_names (table : List StringAndValue) : List String :=
  (real_entries table).map (fun e => e.name)

/-- Modelled from the spec: `map_string_to_value` is declared outside the
source file. The spec gives its contract: the value of the entry whose name is
exactly the needle, and the value of the end marker (Unknown) when there is
none. It is written here as the scan of the array up to the entry with the
empty name, which is how the table marks its end (it is passed without a
length). Running off a list with no end marker cannot happen for
`database_strings`; the value there is that of `DBTYPE_NULL`. -/
def map_string_to_value : List StringAndValue → String → Int
  | [], _ => DBTYPE_NULL.code
  | e :: rest, needle =>
    if e.name = "" then e.value
    else if e.name = needle then e.value
    else map_string_to_value rest needle

/-! ## Settings, errors, the outside world -/

/-- The errors `create` can end in. The first two are raised by `create`
itself, with their message; `OmRangeError` is the settings container's own
error; `BackendError` stands for whatever a backend constructor raises. -/
inductive OmError
  | OmInvalidArgumentError (msg : String)
  | OmFeatureUnavailableError (msg : String)
  | OmRangeError (key : String)
  | BackendError (what : String)
  deriving DecidableEq, Repr

/-- A value held in a settings bag: `set` is called with strings and with a
boolean (`myparams.set("m36_heavyduty", true)`). -/
inductive OmSettingValue
  | str (s : String)
  | bool (b : Bool)
  deriving DecidableEq, Repr

/-- Modelled from the spec: the class `OmSettings` is declared outside the
source file. The spec describes it as a mapping from string keys to values
(string or boolean) with value-semantics copy and key insertion. Here it is
the list of its key/value pairs, at most one pair per key being visible. -/
structure OmSettings where
  entries : List (String × OmSettingValue)
  deriving DecidableEq, Repr

/-- The value stored under a key, if any. -/
def OmSettings.find (s : OmSettings) (key : String) : Option OmSettingValue :=
  s.entries.lookup key

/-- The member `set(key, value)`: afterwards the key holds the value, every
other key is as before. -/
def OmSettings.set (s : OmSettings) (key : String) (v : OmSettingValue) : OmSettings :=
  ⟨(key, v) :: s.entries⟩

/-- The member `get(key)`, which yields a string. The spec does not say what
happens for a key that holds no string; here that is the container's own
error, which `create` does not catch. -/
def OmSettings.get (s : OmSettings) (key : String) : Except OmError String :=
  match s.find key with
  | some (OmSettingValue.str v) => Except.ok v
  | _ => Except.error (OmError.OmRangeError key)

/-- The keys `create` sets on its private copy in the auto path. -/
def derived_keys : List String :=
  ["m36_record_file", "m36_term_file", "m36_db_file", "m36_heavyduty",
   "m36_key_file", "quartz_dir", "sleepycat_dir"]

/-- The conditional compilation switches of the file: which backends are
compiled in. -/
structure BuildConfig where
  MUS_BUILD_BACKEND_MUSCAT36 : Bool
  MUS_BUILD_BACKEND_INMEMORY : Bool
  MUS_BUILD_BACKEND_SLEEPYCAT : Bool
  MUS_BUILD_BACKEND_QUARTZ : Bool
  MUS_BUILD_BACKEND_REMOTE : Bool
  deriving DecidableEq, Repr

/-- A constructor call `new X(...)` with its arguments. The two Quartz classes
take the settings only. -/
inductive CtorCall
  | DADatabase (params : OmSettings) (readonly : Bool)
  | DBDatabase (params : OmSettings) (readonly : Bool)
  | InMemoryDatabase (params : OmSettings) (readonly : Bool)
  | SleepycatDatabase (params : OmSettings) (readonly : Bool)
  | QuartzDatabase (params : OmSettings)
  | QuartzWritableDatabase (params : OmSettings)
  | NetworkDatabase (params : OmSettings) (readonly : Bool)
  deriving DecidableEq, Repr

/-- The settings argument of a constructor call. -/
def CtorCall.settings : CtorCall → OmSettings
  | DADatabase p _ => p
  | DBDatabase p _ => p
  | InMemoryDatabase p _ => p
  | SleepycatDatabase p _ => p
  | QuartzDatabase p => p
  | QuartzWritableDatabase p => p
  | NetworkDatabase p _ => p

/-- A backend instance, identified by the constructor call that made it. -/
structure Database where
  made_by : CtorCall
  deriving DecidableEq, Repr

/-- The handle `RefCntPtr<Database>`: `none` is the null pointer. -/
abbrev RefCntPtr := Option Database

/-- What lies outside the file: the file system as seen by `file_exists`, and
the backend constructors, each of which either raises an error (`some e`) or
yields an instance (`none`). -/
structure World where
  fs : String → Bool
  ctor_raises : CtorCall → Option OmError

/-- What a call does to the outside, in order. -/
inductive Event
  | file_exists (path : String)
  | construct (call : CtorCall)
  deriving DecidableEq, Repr

/-- The variables of one call of `create`: the caller's bag `params`, the
private copy `myparams`, the handle `database`, and the trace so far. -/
structure Locals where
  params : OmSettings
  myparams : OmSettings
  database : RefCntPtr
  trace : List Event
  deriving DecidableEq, Repr

/-- How control leaves a statement of the switch: on to the next statement,
out of the switch (`break`), or by an exception. -/
inductive Flow
  | next
  | break_
  | throw (e : OmError)
  deriving DecidableEq, Repr

/-! ## The body of `DatabaseBuilder::create` -/

/-- The call `file_exists(path)`: recorded in the trace, answered by the file
system. -/
def file_exists (w : World) (path : String) (s : Locals) : Bool × Locals :=
  (w.fs path, { s with trace := s.trace ++ [Event.file_exists path] })

/-- The statement `myparams.set(key, value)`. -/
def set_myparams (key : String) (v : OmSettingValue) (s : Locals) : Locals :=
  { s with myparams := s.myparams.set key v }

/-- The statement `database = new X(...)`: the call is recorded; if the
constructor raises, the exception leaves `create` and `database` is not
assigned. -/
def assign_new (w : World) (call : CtorCall) (s : Locals) : Locals × Flow :=
  let s1 := { s with trace := s.trace ++ [Event.construct call] }
  match w.ctor_raises call with
  | some e => (s1, Flow.throw e)
  | none => ({ s1 with database := some ⟨call⟩ }, Flow.next)

/-- Sequencing: the second statement runs only if the first ran to its end. -/
def and_then (r : Locals × Flow) (f : Locals → Locals × Flow) : Locals × Flow :=
  match r.2 with
  | Flow.next => f r.1
  | _ => r

/-- A statement followed by `break`. -/
def then_break (r : Locals × Flow) : Locals × Flow :=
  match r.2 with
  | Flow.next => (r.1, Flow.break_)
  | _ => r

/-- The two lines each Muscat36 rule has (98-99, 107-108, 116-117):
`if (file_exists(path + "/keyfile")) myparams.set("m36_key_file", path + "/keyfile");` -/
def keyfile_lines (w : World) (path : String) (s : Locals) : Locals :=
  let c := file_exists w (path ++ "/keyfile") s
  if c.1 then set_myparams "m36_key_file" (OmSettingValue.str (path ++ "/keyfile")) c.2
  else c.2

/-- Lines 93-102: the DA rule. The `&&` does not evaluate its second operand
when the first is false. -/
def rule_da (w : World) (path : String) (readonly : Bool) (s : Locals) : Locals × Flow :=
  let c1 := file_exists w (path ++ "/R") s
  if c1.1 then
    let c2 := file_exists w (path ++ "/T") c1.2
    if c2.1 then
      let s1 := set_myparams "m36_record_file" (OmSettingValue.str (path ++ "/R")) c2.2
      let s2 := set_myparams "m36_term_file" (OmSettingValue.str (path ++ "/T")) s1
      let s3 := set_myparams "m36_heavyduty" (OmSettingValue.bool true) s2
      let s4 := keyfile_lines w path s3
      then_break (assign_new w (CtorCall.DADatabase s4.myparams readonly) s4)
    else (c2.2, Flow.next)
  else (c1.2, Flow.next)

/-- Lines 103-111 and 112-120: the two DB rules, which differ in the file name
only (`"/DB"` and `"/DB.da"`). -/
def rule_db (w : World) (file : String) (path : String) (readonly : Bool) (s : Locals) :
    Locals × Flow :=
  let c := file_exists w (path ++ file) s
  if c.1 then
    let s1 := set_myparams "m36_db_file" (OmSettingValue.str (path ++ file)) c.2
    let s2 := set_myparams "m36_heavyduty" (OmSettingValue.bool true) s1
    let s3 := keyfile_lines w path s2
    then_break (assign_new w (CtorCall.DBDatabase s3.myparams readonly) s3)
  else (c.2, Flow.next)

/-- Lines 126-133: the Quartz rule. There is no `break` after the
construction. -/
def rule_quartz (w : World) (path : String) (readonly : Bool) (s : Locals) : Locals × Flow :=
  let c := file_exists w (path ++ "/record_DB") s
  if c.1 then
    let s1 := set_myparams "quartz_dir" (OmSettingValue.str path) c.2
    if readonly then assign_new w (CtorCall.QuartzDatabase s1.myparams) s1
    else assign_new w (CtorCall.QuartzWritableDatabase s1.myparams) s1
  else (c.2, Flow.next)

/-- Lines 144-145: the Sleepycat default, with no condition. -/
def rule_sleepycat (w : World) (path : String) (readonly : Bool) (s : Locals) : Locals × Flow :=
  let s1 := set_myparams "sleepycat_dir" (OmSettingValue.str path) s
  assign_new w (CtorCall.SleepycatDatabase s1.myparams readonly) s1

/-- A block under `#ifdef`: present only when the switch is on. -/
def ifdef (flag : Bool) (f : Locals → Locals × Flow) (s : Locals) : Locals × Flow :=
  if flag then f s else (s, Flow.next)

/-- Lines 88-148: `case DBTYPE_AUTO`. -/
def case_auto (b : BuildConfig) (w : World) (readonly : Bool) (s : Locals) : Locals × Flow :=
  match s.params.get "auto_dir" with
  | Except.error e => (s, Flow.throw e)
  | Except.ok path =>
    let s0 := { s with myparams := s.params }
    then_break
      (and_then
        (and_then
          (ifdef b.MUS_BUILD_BACKEND_MUSCAT36
            (fun s => and_then (and_then (rule_da w path readonly s)
              (rule_db w "/DB" path readonly)) (rule_db w "/DB.da" path readonly)) s0)
          (ifdef b.MUS_BUILD_BACKEND_QUARTZ (rule_quartz w path readonly)))
        (ifdef b.MUS_BUILD_BACKEND_SLEEPYCAT (rule_sleepycat w path readonly)))

/-- Lines 83-185: the switch. `none` is the `default:` label. -/
def switch_dbtype (b : BuildConfig) (w : World) (readonly : Bool) (backend : String)
    (dbtype : Option om_database_type) (s : Locals) : Locals × Flow :=
  match dbtype with
  | some DBTYPE_NULL =>
    (s, Flow.throw (OmError.OmInvalidArgumentError
      ("Unknown database type \x60" ++ backend ++ "\x27")))
  | some DBTYPE_AUTO => case_auto b w readonly s
  | some DBTYPE_MUSCAT36_DA =>
    then_break (ifdef b.MUS_BUILD_BACKEND_MUSCAT36
      (fun s => assign_new w (CtorCall.DADatabase s.params readonly) s) s)
  | some DBTYPE_MUSCAT36_DB =>
    then_break (ifdef b.MUS_BUILD_BACKEND_MUSCAT36
      (fun s => assign_new w (CtorCall.DBDatabase s.params readonly) s) s)
  | some DBTYPE_INMEMORY =>
    then_break (ifdef b.MUS_BUILD_BACKEND_INMEMORY
      (fun s => assign_new w (CtorCall.InMemoryDatabase s.params readonly) s) s)
  | some DBTYPE_SLEEPYCAT =>
    then_break (ifdef b.MUS_BUILD_BACKEND_SLEEPYCAT
      (fun s => assign_new w (CtorCall.SleepycatDatabase s.params readonly) s) s)
  | some DBTYPE_QUARTZ =>
    then_break (ifdef b.MUS_BUILD_BACKEND_QUARTZ
      (fun s => if readonly then assign_new w (CtorCall.QuartzDatabase s.params) s
        else assign_new w (CtorCall.QuartzWritableDatabase s.params) s) s)
  | some DBTYPE_REMOTE =>
    then_break (ifdef b.MUS_BUILD_BACKEND_REMOTE
      (fun s => assign_new w (CtorCall.NetworkDatabase s.params readonly) s) s)
  | none => (s, Flow.throw (OmError.OmInvalidArgumentError "Unknown database type"))

deriving instance DecidableEq for Except

/-- What the caller observes of one call: its settings bag afterwards, what
was done to the outside, and the returned handle or the error. -/
structure Outcome where
  params : OmSettings
  trace : List Event
  result : Except OmError RefCntPtr
  deriving DecidableEq, Repr

/-- The message of the error raised at lines 189-191. -/
def no_database_msg : String :=
  "Couldn\x27t create database: support for specified database type not available."

/-- Lines 187-194: the null check and the return. -/
def check_and_return (r : Locals × Flow) : Outcome :=
  match r.2 with
  | Flow.throw e => ⟨r.1.params, r.1.trace, Except.error e⟩
  | _ =>
    if r.1.database = none then
      ⟨r.1.params, r.1.trace, Except.error (OmError.OmFeatureUnavailableError no_database_msg)⟩
    else ⟨r.1.params, r.1.trace, Except.ok r.1.database⟩

/-- The function `DatabaseBuilder::create(const OmSettings & params, bool readonly)`,
lines 73-195, in a build `b` and a world `w`. -/
def DatabaseBuilder.create (b : BuildConfig) (w : World) (params : OmSettings)
    (readonly : Bool) : Outcome :=
  let s : Locals := ⟨params, params, none, []⟩
  match params.get "backend" with
  | Except.error e => ⟨params, [], Except.error e⟩
  | Except.ok backend =>
    let dbtype := static_cast (map_string_to_value database_strings backend)
    check_and_return (switch_dbtype b w readonly backend dbtype s)

/-- The invariant of the body of `create`, for a call with settings `p0` in a
world `w`: the caller's bag is untouched, the private copy and the settings of
every constructor call differ from it on derived keys at most, and a non-null
`database` is an instance a constructor of the trace has yielded. -/
structure Inv (w : World) (p0 : OmSettings) (s : Locals) : Prop where
  params_eq : s.params = p0
  my_agree : ∀ key, key ∉ derived_keys → s.myparams.find key = p0.find key
  calls_agree : ∀ c, Event.construct c ∈ s.trace →
    ∀ key, key ∉ derived_keys → c.settings.find key = p0.find key
  db_made : ∀ d, s.database = some d →
    Event.construct d.made_by ∈ s.trace ∧ w.ctor_raises d.made_by = none

/-! ## Concrete inputs

The builds, worlds and settings bags the theorems are instantiated at. -/

/-- A build with every backend compiled in. -/
def build_all : BuildConfig := ⟨true, true, true, true, true⟩

/-- A build with no backend compiled in. -/
def build_none : BuildConfig := ⟨false, false, false, false, false⟩

/-- A build with the Quartz backend only. -/
def build_quartz : BuildConfig := ⟨false, false, false, true, false⟩

/-- A build with the Sleepycat backend only. -/
def build_sleepycat : BuildConfig := ⟨false, false, true, false, false⟩

/-- A build with every backend but Sleepycat. -/
def build_no_sleepycat : BuildConfig := ⟨true, true, false, true, true⟩

/-- A build with the Quartz and Sleepycat backends. -/
def build_quartz_sleepycat : BuildConfig := ⟨false, false, true, true, false⟩

/-- A world in which exactly the listed files exist and every constructor
yields an instance. -/
def world_with (files : List String) : World :=
  ⟨fun path => decide (path ∈ files), fun _ => none⟩

/-- A world in which exactly the listed files exist and every constructor
raises the same backend error. -/
def world_refusing (files : List String) : World :=
  ⟨fun path => decide (path ∈ files), fun _ => some (OmError.BackendError "cannot open")⟩

/-- The settings bag with the one key `backend`. -/
def settings_backend (name : String) : OmSettings :=
  ⟨[("backend", OmSettingValue.str name)]⟩

/-- The settings bag with `backend = auto` and `auto_dir = dir`. -/
def settings_auto (dir : String) : OmSettings :=
  ⟨[("backend", OmSettingValue.str "auto"), ("auto_dir", OmSettingValue.str dir)]⟩

/-- The settings lines 95-99 leave in `myparams`, written out: the caller's
settings with the three keys of the DA rule set, and `m36_key_file` set when
the key file exists. -/
def da_rule_settings (w : World) (params : OmSettings) (dir : String) : OmSettings :=
  let base := ((params.set "m36_record_file" (OmSettingValue.str (dir ++ "/R"))).set
    "m36_term_file" (OmSettingValue.str (dir ++ "/T"))).set
    "m36_heavyduty" (OmSettingValue.bool true)
  if w.fs (dir ++ "/keyfile") then
    base.set "m36_key_file" (OmSettingValue.str (dir ++ "/keyfile"))
  else base

/-- The settings lines 104-108 (and 113-117) leave in `myparams`, written out:
the caller's settings with the two keys of a DB rule set, `file` being `"/DB"`
or `"/DB.da"`, and `m36_key_file` set when the key file exists. -/
def db_rule_settings (w : World) (params : OmSettings) (dir : String) (file : String) :
    OmSettings :=
  let base := (params.set "m36_db_file" (OmSettingValue.str (dir ++ file))).set
    "m36_heavyduty" (OmSettingValue.bool true)
  if w.fs (dir ++ "/keyfile") then
    base.set "m36_key_file" (OmSettingValue.str (dir ++ "/keyfile"))
  else base

/-- The constructor calls of a trace, in order. -/
def constructor_calls : List Event → List CtorCall
  | [] => []
  | Event.construct c :: rest => c :: constructor_calls rest
  | Event.file_exists _ :: rest => constructor_calls rest

/-- The paths of the file-existence checks of a trace, in order. -/
def checked_paths : List Event → List String
  | [] => []
  | Event.file_exists p :: rest => p :: checked_paths rest
  | Event.construct _ :: rest => checked_paths rest

/-! ## Predicates on runs

Used to state what every run of the body satisfies. -/

/-- Whether a constructor call opens the database read-only: the `readonly`
argument, and for the two Quartz classes the class itself. -/
def CtorCall.opens_readonly : CtorCall → Bool
  | DADatabase _ r => r
  | DBDatabase _ r => r
  | InMemoryDatabase _ r => r
  | SleepycatDatabase _ r => r
  | QuartzDatabase _ => true
  | QuartzWritableDatabase _ => false
  | NetworkDatabase _ r => r

/-- Every constructor call of the trace so far matches `readonly` and has
yielded an instance. -/
def Pre (w : World) (readonly : Bool) (s : Locals) : Prop :=
  ∀ c, Event.construct c ∈ s.trace → c.opens_readonly = readonly ∧ w.ctor_raises c = none

/-- What holds after a statement: if it ran on or left the switch, `Pre`; if it
left by an exception `e`, either `e` is one of the errors `Own` that the body
raises itself and `Pre` holds, or the last event of the trace is a constructor
call that raised `e`, and `Pre` holds of the trace before it. -/
def Post (w : World) (readonly : Bool) (Own : OmError → Prop) (r : Locals × Flow) : Prop :=
  match r.2 with
  | Flow.throw e =>
    (Pre w readonly r.1 ∧ Own e) ∨
      ∃ before c, r.1.trace = before ++ [Event.construct c] ∧ c.opens_readonly = readonly ∧
        w.ctor_raises c = some e ∧
        ∀ c2, Event.construct c2 ∈ before → c2.opens_readonly = readonly ∧
          w.ctor_raises c2 = none
  | _ => Pre w readonly r.1

/-- The errors the switch raises itself. -/
def own_error (backend : String) (dbtype : Option om_database_type) (e : OmError) : Prop :=
  e = OmError.OmRangeError "auto_dir" ∨
    (dbtype = some DBTYPE_NULL ∧ e = OmError.OmInvalidArgumentError
      ("Unknown database type \x60" ++ backend ++ "\x27")) ∨
    (dbtype = none ∧ e = OmError.OmInvalidArgumentError "Unknown database type")

/-- How a rule of the auto path ends: it runs on, or it leaves the switch with
a database assigned, or a constructor of the trace has raised. -/
def RuleEnd (w : World) (r : Locals × Flow) : Prop :=
  r.2 = Flow.next ∨ (r.2 = Flow.break_ ∧ r.1.database ≠ none) ∨
    ∃ e c, r.2 = Flow.throw e ∧ Event.construct c ∈ r.1.trace ∧ w.ctor_raises c = some e

/-- The backend kind a constructor belongs to; the two Quartz classes are one
kind. -/
def CtorCall.kind : CtorCall → om_database_type
  | DADatabase _ _ => DBTYPE_MUSCAT36_DA
  | DBDatabase _ _ => DBTYPE_MUSCAT36_DB
  | InMemoryDatabase _ _ => DBTYPE_INMEMORY
  | SleepycatDatabase _ _ => DBTYPE_SLEEPYCAT
  | QuartzDatabase _ => DBTYPE_QUARTZ
  | QuartzWritableDatabase _ => DBTYPE_QUARTZ
  | NetworkDatabase _ _ => DBTYPE_REMOTE

/-- The kind of the first constructor call of a trace. -/
def first_kind (t : List Event) : Option om_database_type :=
  (constructor_calls t).head?.map CtorCall.kind

/-- A statement only adds to the trace. -/
def Extends (s : Locals) (r : Locals × Flow) : Prop :=
  ∃ t, r.1.trace = s.trace ++ t

/-- Two runs of a statement, with `readonly` true and false, go together: they
are equal and have called no constructor yet, or both have called one and the
first ones are of the same kind. -/
def Sim (r1 r2 : Locals × Flow) : Prop :=
  (r1 = r2 ∧ constructor_calls r1.1.trace = []) ∨
    (first_kind r1.1.trace ≠ none ∧ first_kind r1.1.trace = first_kind r2.1.trace)

/-! ## The table and the name lookup -/

theorem entry_names_database_strings :
    entry_names database_strings =
      ["auto", "da", "db", "inmemory", "remote", "quartz", "sleepycat"] := by
  decide

theorem lookup_database_strings (name : String) :
    map_string_to_value database_strings name =
      if name = "auto" then DBTYPE_AUTO.code
      else if name = "da" then DBTYPE_MUSCAT36_DA.code
      else if name = "db" then DBTYPE_MUSCAT36_DB.code
      else if name = "inmemory" then DBTYPE_INMEMORY.code
      else if name = "remote" then DBTYPE_REMOTE.code
      else if name = "quartz" then DBTYPE_QUARTZ.code
      else if name = "sleepycat" then DBTYPE_SLEEPYCAT.code
      else DBTYPE_NULL.code := by
  simp only [map_string_to_value, database_strings]
  simp only [eq_comm (b := name)]
  simp

/-! ## Settings and the invariant of the body -/

theorem OmSettings.find_set (s : OmSettings) (k k2 : String) (v : OmSettingValue) :
    (s.set k v).find k2 = if k2 = k then some v else s.find k2 := by
  simp only [OmSettings.find, OmSettings.set, List.lookup_cons]
  by_cases h : k2 = k
  · have hb : (k2 == k) = true := by simp [h]
    rw [hb, if_pos h]
  · have hb : (k2 == k) = false := by simp [h]
    rw [hb, if_neg h]

theorem inv_file_exists {w : World} {p0 : OmSettings} {s : Locals} (path : String)
    (h : Inv w p0 s) : Inv w p0 (file_exists w path s).2 := by
  refine ⟨h.params_eq, h.my_agree, ?_, ?_⟩
  · intro c hc
    simp only [file_exists, List.mem_append, List.mem_singleton] at hc
    rcases hc with hc | hc
    · exact h.calls_agree c hc
    · cases hc
  · intro d hd
    have := h.db_made d hd
    simp only [file_exists, List.mem_append]
    exact ⟨Or.inl this.1, this.2⟩

theorem inv_set_myparams {w : World} {p0 : OmSettings} {s : Locals} (key : String)
    (v : OmSettingValue) (hk : key ∈ derived_keys) (h : Inv w p0 s) :
    Inv w p0 (set_myparams key v s) := by
  refine ⟨h.params_eq, ?_, h.calls_agree, h.db_made⟩
  intro k2 hk2
  simp only [set_myparams, OmSettings.find_set]
  have : k2 ≠ key := fun e => hk2 (e ▸ hk)
  simp only [this, if_false]
  exact h.my_agree k2 hk2

theorem inv_assign_new {w : World} {p0 : OmSettings} {s : Locals} (call : CtorCall)
    (hc : ∀ key, key ∉ derived_keys → call.settings.find key = p0.find key)
    (h : Inv w p0 s) : Inv w p0 (assign_new w call s).1 := by
  unfold assign_new
  cases hr : w.ctor_raises call with
  | some e =>
    refine ⟨h.params_eq, h.my_agree, ?_, ?_⟩
    · intro c hmem
      simp only [List.mem_append, List.mem_singleton] at hmem
      rcases hmem with hmem | hmem
      · exact h.calls_agree c hmem
      · cases hmem
        exact hc
    · intro d hd
      have := h.db_made d hd
      exact ⟨List.mem_append.mpr (Or.inl this.1), this.2⟩
  | none =>
    refine ⟨h.params_eq, h.my_agree, ?_, ?_⟩
    · intro c hmem
      simp only [List.mem_append, List.mem_singleton] at hmem
      rcases hmem with hmem | hmem
      · exact h.calls_agree c hmem
      · cases hmem
        exact hc
    · intro d hd
      simp only [Option.some.injEq] at hd
      subst hd
      exact ⟨List.mem_append.mpr (Or.inr (List.mem_singleton.mpr rfl)), hr⟩

theorem inv_and_then {w : World} {p0 : OmSettings} {r : Locals × Flow}
    {f : Locals → Locals × Flow} (h : Inv w p0 r.1)
    (hf : ∀ s, Inv w p0 s → Inv w p0 (f s).1) : Inv w p0 (and_then r f).1 := by
  unfold and_then
  split
  · exact hf _ h
  · exact h

theorem inv_then_break {w : World} {p0 : OmSettings} {r : Locals × Flow}
    (h : Inv w p0 r.1) : Inv w p0 (then_break r).1 := by
  unfold then_break
  split <;> exact h

theorem inv_ifdef {w : World} {p0 : OmSettings} {s : Locals} (flag : Bool)
    {f : Locals → Locals × Flow} (h : Inv w p0 s)
    (hf : ∀ s, Inv w p0 s → Inv w p0 (f s).1) : Inv w p0 (ifdef flag f s).1 := by
  unfold ifdef
  split
  · exact hf _ h
  · exact h

theorem my_settings_agree {w : World} {p0 : OmSettings} {s : Locals} (h : Inv w p0 s)
    (call : CtorCall) (hs : call.settings = s.myparams) :
    ∀ key, key ∉ derived_keys → call.settings.find key = p0.find key := by
  rw [hs]
  exact h.my_agree

theorem inv_keyfile_lines {w : World} {p0 : OmSettings} {s : Locals} (path : String)
    (h : Inv w p0 s) : Inv w p0 (keyfile_lines w path s) := by
  dsimp only [keyfile_lines]
  split
  · exact inv_set_myparams _ _ (by decide) (inv_file_exists _ h)
  · exact inv_file_exists _ h

theorem inv_rule_da {w : World} {p0 : OmSettings} (path : String) (readonly : Bool)
    (s : Locals) (h : Inv w p0 s) : Inv w p0 (rule_da w path readonly s).1 := by
  dsimp only [rule_da]
  split
  · split
    · have h4 := inv_keyfile_lines (w := w) path
        (inv_set_myparams "m36_heavyduty" (OmSettingValue.bool true) (by decide)
          (inv_set_myparams "m36_term_file" (OmSettingValue.str (path ++ "/T"))
            (by decide)
            (inv_set_myparams "m36_record_file" (OmSettingValue.str (path ++ "/R"))
              (by decide) (inv_file_exists (path ++ "/T") (inv_file_exists (path ++ "/R") h)))))
      exact inv_then_break (inv_assign_new _ (my_settings_agree h4 _ rfl) h4)
    · exact inv_file_exists _ (inv_file_exists _ h)
  · exact inv_file_exists _ h

theorem inv_rule_db {w : World} {p0 : OmSettings} (file path : String) (readonly : Bool)
    (s : Locals) (h : Inv w p0 s) : Inv w p0 (rule_db w file path readonly s).1 := by
  dsimp only [rule_db]
  split
  · have h3 := inv_keyfile_lines (w := w) path
      (inv_set_myparams "m36_heavyduty" (OmSettingValue.bool true) (by decide)
        (inv_set_myparams "m36_db_file" (OmSettingValue.str (path ++ file))
          (by decide) (inv_file_exists (path ++ file) h)))
    exact inv_then_break (inv_assign_new _ (my_settings_agree h3 _ rfl) h3)
  · exact inv_file_exists _ h

theorem inv_rule_quartz {w : World} {p0 : OmSettings} (path : String) (readonly : Bool)
    (s : Locals) (h : Inv w p0 s) : Inv w p0 (rule_quartz w path readonly s).1 := by
  dsimp only [rule_quartz]
  by_cases hc : (file_exists w (path ++ "/record_DB") s).1 = true
  · rw [if_pos hc]
    have h1 := inv_set_myparams (w := w) "quartz_dir" (OmSettingValue.str path)
      (by decide) (inv_file_exists (path ++ "/record_DB") h)
    split
    · exact inv_assign_new _ (my_settings_agree h1 _ rfl) h1
    · exact inv_assign_new _ (my_settings_agree h1 _ rfl) h1
  · rw [if_neg hc]
    exact inv_file_exists _ h

theorem inv_rule_sleepycat {w : World} {p0 : OmSettings} (path : String) (readonly : Bool)
    (s : Locals) (h : Inv w p0 s) : Inv w p0 (rule_sleepycat w path readonly s).1 := by
  unfold rule_sleepycat
  have h1 := inv_set_myparams (w := w) "sleepycat_dir" (OmSettingValue.str path)
    (by decide) h
  exact inv_assign_new _ (my_settings_agree h1 _ rfl) h1

theorem inv_case_auto {w : World} {p0 : OmSettings} (b : BuildConfig) (readonly : Bool)
    (s : Locals) (h : Inv w p0 s) : Inv w p0 (case_auto b w readonly s).1 := by
  unfold case_auto
  split
  · exact h
  · rename_i path _
    have h0 : Inv w p0 { s with myparams := s.params } :=
      ⟨h.params_eq, fun key _ => by rw [h.params_eq], h.calls_agree, h.db_made⟩
    refine inv_then_break (inv_and_then (inv_and_then (inv_ifdef _ h0 ?_) ?_) ?_)
    · intro s1 h1
      exact inv_and_then (inv_and_then (inv_rule_da path readonly s1 h1)
        (inv_rule_db "/DB" path readonly)) (inv_rule_db "/DB.da" path readonly)
    · intro s1 h1
      exact inv_ifdef _ h1 (inv_rule_quartz path readonly)
    · intro s1 h1
      exact inv_ifdef _ h1 (inv_rule_sleepycat path readonly)

theorem params_settings_agree {w : World} {p0 : OmSettings} {s : Locals} (h : Inv w p0 s)
    (call : CtorCall) (hs : call.settings = s.params) :
    ∀ key, key ∉ derived_keys → call.settings.find key = p0.find key := by
  rw [hs, h.params_eq]
  exact fun _ _ => rfl

theorem inv_switch_dbtype {w : World} {p0 : OmSettings} (b : BuildConfig) (readonly : Bool)
    (backend : String) (dbtype : Option om_database_type) (s : Locals) (h : Inv w p0 s) :
    Inv w p0 (switch_dbtype b w readonly backend dbtype s).1 := by
  unfold switch_dbtype
  split
  · exact h
  · exact inv_case_auto b readonly s h
  · exact inv_then_break (inv_ifdef _ h
      (fun s1 h1 => inv_assign_new _ (params_settings_agree h1 _ rfl) h1))
  · exact inv_then_break (inv_ifdef _ h
      (fun s1 h1 => inv_assign_new _ (params_settings_agree h1 _ rfl) h1))
  · exact inv_then_break (inv_ifdef _ h
      (fun s1 h1 => inv_assign_new _ (params_settings_agree h1 _ rfl) h1))
  · exact inv_then_break (inv_ifdef _ h
      (fun s1 h1 => inv_assign_new _ (params_settings_agree h1 _ rfl) h1))
  · refine inv_then_break (inv_ifdef _ h (fun s1 h1 => ?_))
    dsimp only
    split
    · exact inv_assign_new _ (params_settings_agree h1 _ rfl) h1
    · exact inv_assign_new _ (params_settings_agree h1 _ rfl) h1
  · exact inv_then_break (inv_ifdef _ h
      (fun s1 h1 => inv_assign_new _ (params_settings_agree h1 _ rfl) h1))
  · exact h

theorem inv_initial (w : World) (params : OmSettings) :
    Inv w params ⟨params, params, none, []⟩ :=
  ⟨rfl, fun _ _ => rfl, fun _ hc => (by cases hc), fun _ hd => (by cases hd)⟩

/-! ## Resolved database types -/

theorem dbtype_unregistered (name : String) (h : name ∉ entry_names database_strings) :
    static_cast (map_string_to_value database_strings name) = some DBTYPE_NULL := by
  rw [entry_names_database_strings] at h
  simp only [List.mem_cons, List.mem_singleton, List.not_mem_nil, or_false, not_or] at h
  obtain ⟨h1, h2, h3, h4, h5, h6, h7⟩ := h
  rw [lookup_database_strings]
  simp only [h1, h2, h3, h4, h5, h6, h7, if_false]
  rfl

theorem dbtype_auto : static_cast (map_string_to_value database_strings "auto") =
    some DBTYPE_AUTO := by decide

theorem dbtype_da : static_cast (map_string_to_value database_strings "da") =
    some DBTYPE_MUSCAT36_DA := by decide

theorem dbtype_db : static_cast (map_string_to_value database_strings "db") =
    some DBTYPE_MUSCAT36_DB := by decide

theorem dbtype_inmemory : static_cast (map_string_to_value database_strings "inmemory") =
    some DBTYPE_INMEMORY := by decide

theorem dbtype_remote : static_cast (map_string_to_value database_strings "remote") =
    some DBTYPE_REMOTE := by decide

theorem dbtype_quartz : static_cast (map_string_to_value database_strings "quartz") =
    some DBTYPE_QUARTZ := by decide

theorem dbtype_sleepycat : static_cast (map_string_to_value database_strings "sleepycat") =
    some DBTYPE_SLEEPYCAT := by decide

theorem mem_constructor_calls {c : CtorCall} {t : List Event} :
    c ∈ constructor_calls t ↔ Event.construct c ∈ t := by
  induction t with
  | nil => simp [constructor_calls]
  | cons e rest ih =>
    cases e with
    | file_exists p => simp [constructor_calls, ih]
    | construct c2 => simp [constructor_calls, ih]

/-! ## Outcomes of single paths -/

theorem explicit_kind_outcome (w : World) (params : OmSettings) (call : CtorCall) :
    check_and_return (then_break (assign_new w call ⟨params, params, none, []⟩)) =
      (⟨params, [Event.construct call],
        match w.ctor_raises call with
        | none => Except.ok (some ⟨call⟩)
        | some e => Except.error e⟩ : Outcome) := by
  cases hc : w.ctor_raises call <;>
    simp [assign_new, hc, then_break, check_and_return]

theorem auto_da_outcome (b : BuildConfig) (w : World) (params : OmSettings)
    (readonly : Bool) (dir : String)
    (hget : params.get "backend" = Except.ok "auto")
    (hdir : params.get "auto_dir" = Except.ok dir)
    (hM : b.MUS_BUILD_BACKEND_MUSCAT36 = true)
    (hR : w.fs (dir ++ "/R") = true) (hT : w.fs (dir ++ "/T") = true) :
    DatabaseBuilder.create b w params readonly =
      ⟨params,
        [Event.file_exists (dir ++ "/R"), Event.file_exists (dir ++ "/T"),
         Event.file_exists (dir ++ "/keyfile"),
         Event.construct (CtorCall.DADatabase (da_rule_settings w params dir) readonly)],
        match w.ctor_raises (CtorCall.DADatabase (da_rule_settings w params dir) readonly) with
        | none =>
          Except.ok (some ⟨CtorCall.DADatabase (da_rule_settings w params dir) readonly⟩)
        | some e => Except.error e⟩ := by
  cases hc : w.ctor_raises (CtorCall.DADatabase (da_rule_settings w params dir) readonly) <;>
    cases hK : w.fs (dir ++ "/keyfile") <;>
    simp only [da_rule_settings, hK, Bool.false_eq_true, if_true, if_false] at hc <;>
    simp [DatabaseBuilder.create, hget, dbtype_auto, switch_dbtype, case_auto, hdir, hM,
      ifdef, rule_da, file_exists, hR, hT, keyfile_lines, hK, set_myparams, assign_new, hc,
      and_then, then_break, check_and_return, da_rule_settings]

theorem da_rule_settings_find (w : World) (params : OmSettings) (dir key : String) :
    (da_rule_settings w params dir).find key =
      if key = "m36_key_file" ∧ w.fs (dir ++ "/keyfile") = true then
        some (OmSettingValue.str (dir ++ "/keyfile"))
      else if key = "m36_heavyduty" then some (OmSettingValue.bool true)
      else if key = "m36_term_file" then some (OmSettingValue.str (dir ++ "/T"))
      else if key = "m36_record_file" then some (OmSettingValue.str (dir ++ "/R"))
      else params.find key := by
  unfold da_rule_settings
  cases hK : w.fs (dir ++ "/keyfile") <;> simp only [Bool.false_eq_true, if_false, if_true,
    OmSettings.find_set, and_false, and_true]

theorem db_rule_settings_find (w : World) (params : OmSettings) (dir file key : String) :
    (db_rule_settings w params dir file).find key =
      if key = "m36_key_file" ∧ w.fs (dir ++ "/keyfile") = true then
        some (OmSettingValue.str (dir ++ "/keyfile"))
      else if key = "m36_heavyduty" then some (OmSettingValue.bool true)
      else if key = "m36_db_file" then some (OmSettingValue.str (dir ++ file))
      else params.find key := by
  unfold db_rule_settings
  cases hK : w.fs (dir ++ "/keyfile") <;> simp only [Bool.false_eq_true, if_false, if_true,
    OmSettings.find_set, and_false, and_true]

theorem auto_db_outcome (b : BuildConfig) (w : World) (params : OmSettings)
    (readonly : Bool) (dir : String)
    (hget : params.get "backend" = Except.ok "auto")
    (hdir : params.get "auto_dir" = Except.ok dir)
    (hM : b.MUS_BUILD_BACKEND_MUSCAT36 = true)
    (hRT : ¬ (w.fs (dir ++ "/R") = true ∧ w.fs (dir ++ "/T") = true))
    (hDB : w.fs (dir ++ "/DB") = true ∨ w.fs (dir ++ "/DB.da") = true) :
    DatabaseBuilder.create b w params readonly =
      ⟨params,
        [Event.file_exists (dir ++ "/R")] ++
          (if w.fs (dir ++ "/R") then [Event.file_exists (dir ++ "/T")] else []) ++
          [Event.file_exists (dir ++ "/DB")] ++
          (if w.fs (dir ++ "/DB") then [] else [Event.file_exists (dir ++ "/DB.da")]) ++
          [Event.file_exists (dir ++ "/keyfile"),
           Event.construct (CtorCall.DBDatabase (db_rule_settings w params dir
             (if w.fs (dir ++ "/DB") then "/DB" else "/DB.da")) readonly)],
        match w.ctor_raises (CtorCall.DBDatabase (db_rule_settings w params dir
            (if w.fs (dir ++ "/DB") then "/DB" else "/DB.da")) readonly) with
        | none =>
          Except.ok (some ⟨CtorCall.DBDatabase (db_rule_settings w params dir
            (if w.fs (dir ++ "/DB") then "/DB" else "/DB.da")) readonly⟩)
        | some e => Except.error e⟩ := by
  cases hc : w.ctor_raises (CtorCall.DBDatabase (db_rule_settings w params dir
      (if w.fs (dir ++ "/DB") then "/DB" else "/DB.da")) readonly) <;>
    cases hK : w.fs (dir ++ "/keyfile") <;>
    cases hR : w.fs (dir ++ "/R") <;>
    cases hT : w.fs (dir ++ "/T") <;>
    cases hD : w.fs (dir ++ "/DB") <;>
    cases hA : w.fs (dir ++ "/DB.da") <;>
    simp only [hR, hT, hD, hA, and_self, not_true_eq_false, or_self, Bool.false_eq_true] at hRT hDB <;>
    simp only [db_rule_settings, hK, hD, Bool.false_eq_true, if_true, if_false] at hc <;>
    simp [DatabaseBuilder.create, hget, dbtype_auto, switch_dbtype, case_auto, hdir, hM,
      ifdef, rule_da, rule_db, file_exists, hR, hT, hD, hA, keyfile_lines, hK, set_myparams,
      assign_new, hc, and_then, then_break, check_and_return, db_rule_settings]

/-! ## What every run satisfies -/

theorem pre_file_exists {w : World} {readonly : Bool} {s : Locals} (path : String)
    (h : Pre w readonly s) : Pre w readonly (file_exists w path s).2 := by
  intro c hc
  simp only [file_exists, List.mem_append, List.mem_singleton] at hc
  rcases hc with hc | hc
  · exact h c hc
  · cases hc

theorem pre_set_myparams {w : World} {readonly : Bool} {s : Locals} (key : String)
    (v : OmSettingValue) (h : Pre w readonly s) : Pre w readonly (set_myparams key v s) :=
  h

theorem pre_keyfile_lines {w : World} {readonly : Bool} {s : Locals} (path : String)
    (h : Pre w readonly s) : Pre w readonly (keyfile_lines w path s) := by
  dsimp only [keyfile_lines]
  split
  · exact pre_set_myparams _ _ (pre_file_exists _ h)
  · exact pre_file_exists _ h

theorem post_assign_new {w : World} {readonly : Bool} {Own : OmError → Prop} {s : Locals}
    (call : CtorCall) (hcall : call.opens_readonly = readonly) (h : Pre w readonly s) :
    Post w readonly Own (assign_new w call s) := by
  unfold assign_new
  cases hr : w.ctor_raises call with
  | some e =>
    exact Or.inr ⟨s.trace, call, rfl, hcall, hr, h⟩
  | none =>
    intro c hc
    simp only [List.mem_append, List.mem_singleton] at hc
    rcases hc with hc | hc
    · exact h c hc
    · cases hc
      exact ⟨hcall, hr⟩

theorem post_and_then {w : World} {readonly : Bool} {Own : OmError → Prop}
    {r : Locals × Flow} {f : Locals → Locals × Flow} (h : Post w readonly Own r)
    (hf : ∀ s, Pre w readonly s → Post w readonly Own (f s)) :
    Post w readonly Own (and_then r f) := by
  unfold and_then
  split
  · rename_i hn
    unfold Post at h
    rw [hn] at h
    exact hf _ h
  · exact h

theorem post_then_break {w : World} {readonly : Bool} {Own : OmError → Prop}
    {r : Locals × Flow} (h : Post w readonly Own r) :
    Post w readonly Own (then_break r) := by
  unfold then_break
  split
  · rename_i hn
    unfold Post at h
    rw [hn] at h
    exact h
  · exact h

theorem post_ifdef {w : World} {readonly : Bool} {Own : OmError → Prop} {s : Locals}
    (flag : Bool) {f : Locals → Locals × Flow} (h : Pre w readonly s)
    (hf : ∀ s, Pre w readonly s → Post w readonly Own (f s)) :
    Post w readonly Own (ifdef flag f s) := by
  unfold ifdef
  split
  · exact hf _ h
  · exact h

theorem post_rule_da {w : World} {readonly : Bool} {Own : OmError → Prop} (path : String)
    (s : Locals) (h : Pre w readonly s) : Post w readonly Own (rule_da w path readonly s) := by
  dsimp only [rule_da]
  split
  · split
    · exact post_then_break (post_assign_new _ rfl (pre_keyfile_lines _
        (pre_file_exists (path ++ "/T") (pre_file_exists (path ++ "/R") h))))
    · exact pre_file_exists _ (pre_file_exists _ h)
  · exact pre_file_exists _ h

theorem post_rule_db {w : World} {readonly : Bool} {Own : OmError → Prop}
    (file path : String) (s : Locals) (h : Pre w readonly s) :
    Post w readonly Own (rule_db w file path readonly s) := by
  dsimp only [rule_db]
  split
  · exact post_then_break (post_assign_new _ rfl (pre_keyfile_lines _
      (pre_file_exists (path ++ file) h)))
  · exact pre_file_exists _ h

theorem post_rule_quartz {w : World} {readonly : Bool} {Own : OmError → Prop} (path : String)
    (s : Locals) (h : Pre w readonly s) :
    Post w readonly Own (rule_quartz w path readonly s) := by
  dsimp only [rule_quartz]
  by_cases hc : (file_exists w (path ++ "/record_DB") s).1 = true
  · rw [if_pos hc]
    cases readonly with
    | true => exact post_assign_new _ rfl (pre_file_exists (path ++ "/record_DB") h)
    | false => exact post_assign_new _ rfl (pre_file_exists (path ++ "/record_DB") h)
  · rw [if_neg hc]
    exact pre_file_exists _ h

theorem post_rule_sleepycat {w : World} {readonly : Bool} {Own : OmError → Prop}
    (path : String) (s : Locals) (h : Pre w readonly s) :
    Post w readonly Own (rule_sleepycat w path readonly s) := by
  unfold rule_sleepycat
  exact post_assign_new _ rfl h

theorem post_case_auto {w : World} {readonly : Bool} (b : BuildConfig) (s : Locals)
    (h : Pre w readonly s) :
    Post w readonly (fun e => e = OmError.OmRangeError "auto_dir")
      (case_auto b w readonly s) := by
  unfold case_auto
  cases hg : s.params.get "auto_dir" with
  | error e =>
    refine Or.inl ⟨h, ?_⟩
    unfold OmSettings.get at hg
    split at hg
    · cases hg
    · cases hg
      rfl
  | ok path =>
    have h0 : Pre w readonly { s with myparams := s.params } := h
    refine post_then_break (post_and_then (post_and_then (post_ifdef _ h0 ?_) ?_) ?_)
    · intro s1 h1
      exact post_and_then (post_and_then (post_rule_da path s1 h1)
        (post_rule_db "/DB" path)) (post_rule_db "/DB.da" path)
    · intro s1 h1
      exact post_ifdef _ h1 (post_rule_quartz path)
    · intro s1 h1
      exact post_ifdef _ h1 (post_rule_sleepycat path)

theorem post_weaken {w : World} {readonly : Bool} {Own Own2 : OmError → Prop}
    {r : Locals × Flow} (h : Post w readonly Own r) (himp : ∀ e, Own e → Own2 e) :
    Post w readonly Own2 r := by
  unfold Post at h ⊢
  split
  · rename_i e he
    rw [he] at h
    rcases h with ⟨h1, h2⟩ | h
    · exact Or.inl ⟨h1, himp e h2⟩
    · exact Or.inr h
  · rename_i hne
    split at h
    · rename_i e he
      exact absurd he (hne e)
    · exact h

theorem post_switch_dbtype {w : World} {readonly : Bool} (b : BuildConfig) (backend : String)
    (dbtype : Option om_database_type) (s : Locals) (h : Pre w readonly s) :
    Post w readonly (own_error backend dbtype) (switch_dbtype b w readonly backend dbtype s) := by
  unfold switch_dbtype
  split
  · exact Or.inl ⟨h, Or.inr (Or.inl ⟨rfl, rfl⟩)⟩
  · exact post_weaken (post_case_auto b s h) (fun e he => Or.inl he)
  · exact post_then_break (post_ifdef _ h (fun s1 h1 => post_assign_new _ rfl h1))
  · exact post_then_break (post_ifdef _ h (fun s1 h1 => post_assign_new _ rfl h1))
  · exact post_then_break (post_ifdef _ h (fun s1 h1 => post_assign_new _ rfl h1))
  · exact post_then_break (post_ifdef _ h (fun s1 h1 => post_assign_new _ rfl h1))
  · refine post_then_break (post_ifdef _ h (fun s1 h1 => ?_))
    cases readonly with
    | true => exact post_assign_new _ rfl h1
    | false => exact post_assign_new _ rfl h1
  · exact post_then_break (post_ifdef _ h (fun s1 h1 => post_assign_new _ rfl h1))
  · exact Or.inl ⟨h, Or.inr (Or.inr ⟨rfl, rfl⟩)⟩

theorem pre_initial (w : World) (readonly : Bool) (params : OmSettings) :
    Pre w readonly ⟨params, params, none, []⟩ :=
  fun _ hc => (by cases hc)

theorem check_and_return_trace (r : Locals × Flow) :
    (check_and_return r).trace = r.1.trace := by
  unfold check_and_return
  split
  · rfl
  · split <;> rfl

theorem create_post (b : BuildConfig) (w : World) (params : OmSettings) (readonly : Bool)
    (backend : String) (hg : params.get "backend" = Except.ok backend) :
    ∃ r : Locals × Flow,
      DatabaseBuilder.create b w params readonly = check_and_return r ∧
      Post w readonly
        (own_error backend (static_cast (map_string_to_value database_strings backend))) r := by
  refine ⟨switch_dbtype b w readonly backend
    (static_cast (map_string_to_value database_strings backend)) ⟨params, params, none, []⟩,
    ?_, post_switch_dbtype b backend _ _ (pre_initial w readonly params)⟩
  simp only [DatabaseBuilder.create, hg]

theorem create_no_backend (b : BuildConfig) (w : World) (params : OmSettings)
    (readonly : Bool) (e : OmError) (hg : params.get "backend" = Except.error e) :
    DatabaseBuilder.create b w params readonly = ⟨params, [], Except.error e⟩ := by
  simp only [DatabaseBuilder.create, hg]

theorem static_cast_lookup (name : String) :
    ∃ t, static_cast (map_string_to_value database_strings name) = some t := by
  rw [lookup_database_strings]
  repeat' split
  all_goals exact ⟨_, rfl⟩

theorem bare_message_ne (backend : String) :
    OmError.OmInvalidArgumentError "Unknown database type" ≠
      OmError.OmInvalidArgumentError ("Unknown database type \x60" ++ backend ++ "\x27") := by
  intro h
  have h2 := congrArg String.length (OmError.OmInvalidArgumentError.inj h)
  simp only [String.length_append] at h2
  have h3 : "Unknown database type".length = 21 := by decide
  have h4 : "Unknown database type \x60".length = 23 := by decide
  have h5 : "\x27".length = 1 := by decide
  omega

theorem auto_unfold (b : BuildConfig) (w : World) (params : OmSettings) (readonly : Bool)
    (dir : String) (hget : params.get "backend" = Except.ok "auto")
    (hdir : params.get "auto_dir" = Except.ok dir) :
    DatabaseBuilder.create b w params readonly =
      check_and_return (then_break (and_then (and_then
        (ifdef b.MUS_BUILD_BACKEND_MUSCAT36
          (fun s => and_then (and_then (rule_da w dir readonly s)
            (rule_db w "/DB" dir readonly)) (rule_db w "/DB.da" dir readonly))
          ⟨params, params, none, []⟩)
        (ifdef b.MUS_BUILD_BACKEND_QUARTZ (rule_quartz w dir readonly)))
        (ifdef b.MUS_BUILD_BACKEND_SLEEPYCAT (rule_sleepycat w dir readonly)))) := by
  simp only [DatabaseBuilder.create, hget, dbtype_auto, switch_dbtype, case_auto, hdir]

theorem muscat36_block_no_match (b : BuildConfig) (w : World) (readonly : Bool) (dir : String)
    (s : Locals)
    (hno : b.MUS_BUILD_BACKEND_MUSCAT36 = false ∨
      (¬ (w.fs (dir ++ "/R") = true ∧ w.fs (dir ++ "/T") = true) ∧
        w.fs (dir ++ "/DB") = false ∧ w.fs (dir ++ "/DB.da") = false)) :
    ∃ checks, constructor_calls checks = [] ∧
      ifdef b.MUS_BUILD_BACKEND_MUSCAT36
        (fun s => and_then (and_then (rule_da w dir readonly s)
          (rule_db w "/DB" dir readonly)) (rule_db w "/DB.da" dir readonly)) s =
        (⟨s.params, s.myparams, s.database, s.trace ++ checks⟩, Flow.next) := by
  cases hM : b.MUS_BUILD_BACKEND_MUSCAT36 with
  | false => exact ⟨[], rfl, by simp [ifdef]⟩
  | true =>
    rcases hno with hno | ⟨hRT, hDB, hDA⟩
    · rw [hM] at hno
      cases hno
    · cases hR : w.fs (dir ++ "/R") <;> cases hT : w.fs (dir ++ "/T") <;>
        simp only [hR, hT, and_self, not_true_eq_false, Bool.false_eq_true, and_false,
          false_and, not_false_eq_true] at hRT
      · exact ⟨[Event.file_exists (dir ++ "/R"), Event.file_exists (dir ++ "/DB"),
            Event.file_exists (dir ++ "/DB.da")], rfl,
          by simp [ifdef, rule_da, rule_db, file_exists, and_then, hR, hDB, hDA]⟩
      · exact ⟨[Event.file_exists (dir ++ "/R"), Event.file_exists (dir ++ "/DB"),
            Event.file_exists (dir ++ "/DB.da")], rfl,
          by simp [ifdef, rule_da, rule_db, file_exists, and_then, hR, hDB, hDA]⟩
      · exact ⟨[Event.file_exists (dir ++ "/R"), Event.file_exists (dir ++ "/T"),
            Event.file_exists (dir ++ "/DB"), Event.file_exists (dir ++ "/DB.da")], rfl,
          by simp [ifdef, rule_da, rule_db, file_exists, and_then, hR, hT, hDB, hDA]⟩

theorem and_then_next {r : Locals × Flow} (f : Locals → Locals × Flow)
    (h : r.2 = Flow.next) : and_then r f = f r.1 := by
  unfold and_then
  rw [h]

theorem and_then_pair_next (s : Locals) (f : Locals → Locals × Flow) :
    and_then (s, Flow.next) f = f s :=
  rfl

theorem and_then_throw {r : Locals × Flow} (f : Locals → Locals × Flow) {e : OmError}
    (h : r.2 = Flow.throw e) : and_then r f = r := by
  unfold and_then
  rw [h]

theorem then_break_throw {r : Locals × Flow} {e : OmError}
    (h : r.2 = Flow.throw e) : then_break r = r := by
  unfold then_break
  rw [h]

theorem check_and_return_throw {r : Locals × Flow} {e : OmError}
    (h : r.2 = Flow.throw e) :
    check_and_return r = ⟨r.1.params, r.1.trace, Except.error e⟩ := by
  unfold check_and_return
  rw [h]

theorem sleepycat_default_outcome (w : World) (dir : String) (readonly : Bool) (s : Locals) :
    check_and_return (then_break (rule_sleepycat w dir readonly s)) =
      ⟨s.params,
        s.trace ++ [Event.construct (CtorCall.SleepycatDatabase
          (s.myparams.set "sleepycat_dir" (OmSettingValue.str dir)) readonly)],
        match w.ctor_raises (CtorCall.SleepycatDatabase
          (s.myparams.set "sleepycat_dir" (OmSettingValue.str dir)) readonly) with
        | none => Except.ok (some ⟨CtorCall.SleepycatDatabase
            (s.myparams.set "sleepycat_dir" (OmSettingValue.str dir)) readonly⟩)
        | some e => Except.error e⟩ := by
  cases hc : w.ctor_raises (CtorCall.SleepycatDatabase
      (s.myparams.set "sleepycat_dir" (OmSettingValue.str dir)) readonly) <;>
    simp [rule_sleepycat, set_myparams, assign_new, hc, then_break, check_and_return]

theorem quartz_block_flow (w : World) (dir : String) (readonly : Bool) (flag : Bool)
    (s : Locals) :
    (ifdef flag (rule_quartz w dir readonly) s).2 = Flow.next ∨
      ∃ e c, (ifdef flag (rule_quartz w dir readonly) s).2 = Flow.throw e ∧
        Event.construct c ∈ (ifdef flag (rule_quartz w dir readonly) s).1.trace ∧
        w.ctor_raises c = some e := by
  cases flag with
  | false => exact Or.inl rfl
  | true =>
    simp only [ifdef, if_true, rule_quartz, file_exists]
    cases hD : w.fs (dir ++ "/record_DB") with
    | false => exact Or.inl rfl
    | true =>
      simp only [if_true, set_myparams]
      cases readonly with
      | true =>
        simp only [if_true, assign_new]
        cases hc : w.ctor_raises (CtorCall.QuartzDatabase
          (s.myparams.set "quartz_dir" (OmSettingValue.str dir))) with
        | none => exact Or.inl rfl
        | some e => exact Or.inr ⟨e, _, rfl, by simp, hc⟩
      | false =>
        simp only [Bool.false_eq_true, if_false, assign_new]
        cases hc : w.ctor_raises (CtorCall.QuartzWritableDatabase
          (s.myparams.set "quartz_dir" (OmSettingValue.str dir))) with
        | none => exact Or.inl rfl
        | some e => exact Or.inr ⟨e, _, rfl, by simp, hc⟩

theorem rule_end_assign_break (w : World) (call : CtorCall) (s : Locals) :
    RuleEnd w (then_break (assign_new w call s)) := by
  unfold assign_new
  cases hc : w.ctor_raises call with
  | none => exact Or.inr (Or.inl ⟨rfl, by simp [then_break]⟩)
  | some e => exact Or.inr (Or.inr ⟨e, call, rfl, by simp [then_break], hc⟩)

theorem rule_end_and_then {w : World} {r : Locals × Flow} {f : Locals → Locals × Flow}
    (h : RuleEnd w r) (hf : ∀ s, RuleEnd w (f s)) : RuleEnd w (and_then r f) := by
  unfold and_then
  split
  · exact hf _
  · exact h

theorem rule_end_rule_da (w : World) (dir : String) (readonly : Bool) (s : Locals) :
    RuleEnd w (rule_da w dir readonly s) := by
  dsimp only [rule_da]
  split
  · split
    · exact rule_end_assign_break w _ _
    · exact Or.inl rfl
  · exact Or.inl rfl

theorem rule_end_rule_db (w : World) (file dir : String) (readonly : Bool) (s : Locals) :
    RuleEnd w (rule_db w file dir readonly s) := by
  dsimp only [rule_db]
  split
  · exact rule_end_assign_break w _ _
  · exact Or.inl rfl

theorem rule_end_muscat36_block (w : World) (dir : String) (readonly : Bool) (flag : Bool)
    (s : Locals) :
    RuleEnd w (ifdef flag (fun s => and_then (and_then (rule_da w dir readonly s)
      (rule_db w "/DB" dir readonly)) (rule_db w "/DB.da" dir readonly)) s) := by
  unfold ifdef
  split
  · exact rule_end_and_then (rule_end_and_then (rule_end_rule_da w dir readonly s)
      (rule_end_rule_db w "/DB" dir readonly)) (rule_end_rule_db w "/DB.da" dir readonly)
  · exact Or.inl rfl

theorem sleepycat_tail_errors (w : World) (dir : String) (readonly : Bool) (flag : Bool)
    (s : Locals) (e : OmError)
    (h : (check_and_return (then_break (and_then
        (ifdef flag (rule_quartz w dir readonly) s)
        (ifdef true (rule_sleepycat w dir readonly))))).result = Except.error e) :
    ∃ c, Event.construct c ∈ (check_and_return (then_break (and_then
        (ifdef flag (rule_quartz w dir readonly) s)
        (ifdef true (rule_sleepycat w dir readonly))))).trace ∧ w.ctor_raises c = some e := by
  have hflow := quartz_block_flow w dir readonly flag s
  revert hflow h
  generalize ifdef flag (rule_quartz w dir readonly) s = rq
  intro h hflow
  rcases hflow with hn | ⟨e0, c0, ht, hmem, hraise⟩
  · have hsl : ifdef true (rule_sleepycat w dir readonly) rq.1 =
        rule_sleepycat w dir readonly rq.1 := rfl
    rw [and_then_next _ hn, hsl, sleepycat_default_outcome] at h ⊢
    dsimp only at h ⊢
    cases hc : w.ctor_raises (CtorCall.SleepycatDatabase
        (rq.1.myparams.set "sleepycat_dir" (OmSettingValue.str dir)) readonly) with
    | none => rw [hc] at h; cases h
    | some e1 =>
      rw [hc] at h
      cases h
      exact ⟨_, by simp, hc⟩
  · rw [and_then_throw _ ht, then_break_throw ht, check_and_return_throw ht] at h ⊢
    cases h
    exact ⟨c0, hmem, hraise⟩

theorem and_then_break {r : Locals × Flow} (f : Locals → Locals × Flow)
    (h : r.2 = Flow.break_) : and_then r f = r := by
  unfold and_then
  rw [h]

theorem then_break_break {r : Locals × Flow} (h : r.2 = Flow.break_) : then_break r = r := by
  unfold then_break
  rw [h]

theorem constructor_calls_append (t1 t2 : List Event) :
    constructor_calls (t1 ++ t2) = constructor_calls t1 ++ constructor_calls t2 := by
  induction t1 with
  | nil => rfl
  | cons e rest ih =>
    cases e with
    | file_exists p => simpa [constructor_calls] using ih
    | construct c => simpa [constructor_calls] using ih

theorem first_kind_append_of_some (t1 t2 : List Event) (h : first_kind t1 ≠ none) :
    first_kind (t1 ++ t2) = first_kind t1 := by
  unfold first_kind at h ⊢
  rw [constructor_calls_append]
  cases hc : constructor_calls t1 with
  | nil => rw [hc] at h; exact absurd rfl h
  | cons c rest => rfl

theorem first_kind_after_checks (t : List Event) (c : CtorCall)
    (h : constructor_calls t = []) :
    first_kind (t ++ [Event.construct c]) = some c.kind := by
  unfold first_kind
  rw [constructor_calls_append, h]
  rfl

theorem sim_refl (r : Locals × Flow) : Sim r r := by
  cases hc : constructor_calls r.1.trace with
  | nil => exact Or.inl ⟨rfl, hc⟩
  | cons c rest =>
    refine Or.inr ⟨?_, rfl⟩
    unfold first_kind
    rw [hc]
    simp

theorem assign_new_trace (w : World) (call : CtorCall) (s : Locals) :
    (assign_new w call s).1.trace = s.trace ++ [Event.construct call] := by
  unfold assign_new
  cases w.ctor_raises call <;> rfl

theorem then_break_fst (r : Locals × Flow) : (then_break r).1 = r.1 := by
  unfold then_break
  split <;> rfl

theorem extends_refl (s : Locals) (fl : Flow) : Extends s (s, fl) :=
  ⟨[], (List.append_nil _).symm⟩

theorem extends_trans {s s1 : Locals} {r : Locals × Flow} (h1 : ∃ t, s1.trace = s.trace ++ t)
    (h2 : Extends s1 r) : Extends s r := by
  obtain ⟨t1, ht1⟩ := h1
  obtain ⟨t2, ht2⟩ := h2
  exact ⟨t1 ++ t2, by rw [ht2, ht1, List.append_assoc]⟩

theorem extends_then_break {s : Locals} {r : Locals × Flow} (h : Extends s r) :
    Extends s (then_break r) := by
  unfold Extends
  rw [then_break_fst]
  exact h

theorem extends_ifdef (flag : Bool) {f : Locals → Locals × Flow}
    (hf : ∀ s1, Extends s1 (f s1)) (s : Locals) : Extends s (ifdef flag f s) := by
  unfold ifdef
  split
  · exact hf s
  · exact extends_refl s _

theorem extends_assign_new (w : World) (call : CtorCall) (s : Locals) :
    Extends s (assign_new w call s) :=
  ⟨_, assign_new_trace w call s⟩

theorem keyfile_lines_trace (w : World) (path : String) (s : Locals) :
    (keyfile_lines w path s).trace = s.trace ++ [Event.file_exists (path ++ "/keyfile")] := by
  dsimp only [keyfile_lines]
  split <;> rfl

theorem grows_file_exists (w : World) (path : String) {s0 s : Locals}
    (h : ∃ t, s.trace = s0.trace ++ t) :
    ∃ t, (file_exists w path s).2.trace = s0.trace ++ t := by
  obtain ⟨t, ht⟩ := h
  exact ⟨t ++ [Event.file_exists path], by simp only [file_exists, ht, List.append_assoc]⟩

theorem grows_keyfile_lines (w : World) (path : String) {s0 s : Locals}
    (h : ∃ t, s.trace = s0.trace ++ t) :
    ∃ t, (keyfile_lines w path s).trace = s0.trace ++ t := by
  obtain ⟨t, ht⟩ := h
  exact ⟨t ++ [Event.file_exists (path ++ "/keyfile")],
    by rw [keyfile_lines_trace, ht, List.append_assoc]⟩

theorem grows_refl (s : Locals) : ∃ t, s.trace = s.trace ++ t :=
  ⟨[], (List.append_nil _).symm⟩

theorem extends_rule_db (w : World) (file path : String) (readonly : Bool) (s : Locals) :
    Extends s (rule_db w file path readonly s) := by
  dsimp only [rule_db]
  split
  · exact extends_then_break (extends_trans
      (grows_keyfile_lines w path (s := set_myparams "m36_heavyduty" (OmSettingValue.bool true)
        (set_myparams "m36_db_file" (OmSettingValue.str (path ++ file))
          (file_exists w (path ++ file) s).2))
        (grows_file_exists w _ (grows_refl s)))
      (extends_assign_new w _ _))
  · exact grows_file_exists w _ (grows_refl s)

theorem extends_rule_quartz (w : World) (path : String) (readonly : Bool) (s : Locals) :
    Extends s (rule_quartz w path readonly s) := by
  dsimp only [rule_quartz]
  by_cases hc : (file_exists w (path ++ "/record_DB") s).1 = true
  · rw [if_pos hc]
    split
    · exact extends_trans ⟨_, rfl⟩ (extends_assign_new w _ _)
    · exact extends_trans ⟨_, rfl⟩ (extends_assign_new w _ _)
  · rw [if_neg hc]
    exact ⟨_, rfl⟩

theorem extends_rule_sleepycat (w : World) (path : String) (readonly : Bool) (s : Locals) :
    Extends s (rule_sleepycat w path readonly s) := by
  unfold rule_sleepycat
  exact extends_trans ⟨[], (List.append_nil _).symm⟩ (extends_assign_new w _ _)

theorem sim_assign_new (w : World) (c1 c2 : CtorCall) (hk : c1.kind = c2.kind) (s : Locals)
    (hs : constructor_calls s.trace = []) : Sim (assign_new w c1 s) (assign_new w c2 s) := by
  refine Or.inr ⟨?_, ?_⟩
  · rw [assign_new_trace, first_kind_after_checks _ _ hs]
    simp
  · rw [assign_new_trace, assign_new_trace, first_kind_after_checks _ _ hs,
      first_kind_after_checks _ _ hs, hk]

theorem sim_then_break {r1 r2 : Locals × Flow} (h : Sim r1 r2) :
    Sim (then_break r1) (then_break r2) := by
  rcases h with ⟨heq, hc⟩ | ⟨h1, h2⟩
  · subst heq
    exact sim_refl _
  · refine Or.inr ⟨?_, ?_⟩
    · rw [then_break_fst]; exact h1
    · rw [then_break_fst, then_break_fst]; exact h2

theorem first_kind_extends {s : Locals} {r : Locals × Flow} (h : Extends s r)
    (hs : first_kind s.trace ≠ none) : first_kind r.1.trace = first_kind s.trace := by
  obtain ⟨t, ht⟩ := h
  rw [ht, first_kind_append_of_some _ _ hs]

theorem extends_and_then_self (r : Locals × Flow) {f : Locals → Locals × Flow}
    (hf : ∀ s1, Extends s1 (f s1)) : Extends r.1 (and_then r f) := by
  unfold and_then
  split
  · exact hf _
  · exact ⟨[], (List.append_nil _).symm⟩

theorem sim_and_then {r1 r2 : Locals × Flow} {f1 f2 : Locals → Locals × Flow}
    (h : Sim r1 r2) (hf : ∀ s, constructor_calls s.trace = [] → Sim (f1 s) (f2 s))
    (h1 : ∀ s, Extends s (f1 s)) (h2 : ∀ s, Extends s (f2 s)) :
    Sim (and_then r1 f1) (and_then r2 f2) := by
  rcases h with ⟨heq, hc⟩ | ⟨hk1, hk⟩
  · subst heq
    unfold and_then
    split
    · exact hf _ hc
    · exact Or.inl ⟨rfl, hc⟩
  · have e1 := first_kind_extends (extends_and_then_self r1 h1) hk1
    have e2 := first_kind_extends (extends_and_then_self r2 h2) (hk ▸ hk1)
    exact Or.inr ⟨e1 ▸ hk1, by rw [e1, e2, hk]⟩

theorem sim_ifdef (flag : Bool) {f1 f2 : Locals → Locals × Flow} (s : Locals)
    (hs : constructor_calls s.trace = [])
    (hf : ∀ s, constructor_calls s.trace = [] → Sim (f1 s) (f2 s)) :
    Sim (ifdef flag f1 s) (ifdef flag f2 s) := by
  unfold ifdef
  split
  · exact hf s hs
  · exact sim_refl _

theorem no_calls_file_exists (w : World) (path : String) (s : Locals)
    (hs : constructor_calls s.trace = []) :
    constructor_calls (file_exists w path s).2.trace = [] := by
  simp only [file_exists, constructor_calls_append, hs]
  rfl

theorem no_calls_keyfile_lines (w : World) (path : String) (s : Locals)
    (hs : constructor_calls s.trace = []) :
    constructor_calls (keyfile_lines w path s).trace = [] := by
  rw [keyfile_lines_trace, constructor_calls_append, hs]
  rfl

theorem sim_rule_da (w : World) (path : String) (s : Locals)
    (hs : constructor_calls s.trace = []) :
    Sim (rule_da w path true s) (rule_da w path false s) := by
  dsimp only [rule_da]
  split
  · split
    · exact sim_then_break (sim_assign_new w _ _ (by rfl) _ (no_calls_keyfile_lines w path _
        (no_calls_file_exists w _ _ (no_calls_file_exists w _ _ hs))))
    · exact sim_refl _
  · exact sim_refl _

theorem sim_rule_db (w : World) (file path : String) (s : Locals)
    (hs : constructor_calls s.trace = []) :
    Sim (rule_db w file path true s) (rule_db w file path false s) := by
  dsimp only [rule_db]
  split
  · exact sim_then_break (sim_assign_new w _ _ (by rfl) _ (no_calls_keyfile_lines w path _
      (no_calls_file_exists w _ _ hs)))
  · exact sim_refl _

theorem sim_rule_quartz (w : World) (path : String) (s : Locals)
    (hs : constructor_calls s.trace = []) :
    Sim (rule_quartz w path true s) (rule_quartz w path false s) := by
  dsimp only [rule_quartz]
  by_cases hc : (file_exists w (path ++ "/record_DB") s).1 = true
  · rw [if_pos hc, if_pos hc]
    simp only [if_true, Bool.false_eq_true, if_false]
    exact sim_assign_new w _ _ (by rfl) _ (no_calls_file_exists w _ _ hs)
  · rw [if_neg hc, if_neg hc]
    exact sim_refl _

theorem sim_rule_sleepycat (w : World) (path : String) (s : Locals)
    (hs : constructor_calls s.trace = []) :
    Sim (rule_sleepycat w path true s) (rule_sleepycat w path false s) := by
  unfold rule_sleepycat
  exact sim_assign_new w _ _ (by rfl) _ hs

theorem sim_case_auto (b : BuildConfig) (w : World) (s : Locals)
    (hs : constructor_calls s.trace = []) :
    Sim (case_auto b w true s) (case_auto b w false s) := by
  unfold case_auto
  cases hg : s.params.get "auto_dir" with
  | error e => exact sim_refl _
  | ok path =>
    dsimp only
    refine sim_then_break (sim_and_then (sim_and_then (sim_ifdef _ _ hs ?_) ?_ ?_ ?_) ?_ ?_ ?_)
    · intro s1 h1
      exact sim_and_then (sim_and_then (sim_rule_da w path s1 h1)
        (sim_rule_db w "/DB" path) (extends_rule_db w "/DB" path true)
        (extends_rule_db w "/DB" path false))
        (sim_rule_db w "/DB.da" path) (extends_rule_db w "/DB.da" path true)
        (extends_rule_db w "/DB.da" path false)
    · intro s1 h1
      exact sim_ifdef _ s1 h1 (sim_rule_quartz w path)
    · exact extends_ifdef _ (extends_rule_quartz w path true)
    · exact extends_ifdef _ (extends_rule_quartz w path false)
    · intro s1 h1
      exact sim_ifdef _ s1 h1 (sim_rule_sleepycat w path)
    · exact extends_ifdef _ (extends_rule_sleepycat w path true)
    · exact extends_ifdef _ (extends_rule_sleepycat w path false)

theorem sim_switch_dbtype (b : BuildConfig) (w : World) (backend : String)
    (dbtype : Option om_database_type) (s : Locals) (hs : constructor_calls s.trace = []) :
    Sim (switch_dbtype b w true backend dbtype s) (switch_dbtype b w false backend dbtype s) := by
  unfold switch_dbtype
  split
  · exact sim_refl _
  · exact sim_case_auto b w s hs
  · exact sim_then_break (sim_ifdef _ s hs (fun s1 h1 => sim_assign_new w _ _ (by rfl) s1 h1))
  · exact sim_then_break (sim_ifdef _ s hs (fun s1 h1 => sim_assign_new w _ _ (by rfl) s1 h1))
  · exact sim_then_break (sim_ifdef _ s hs (fun s1 h1 => sim_assign_new w _ _ (by rfl) s1 h1))
  · exact sim_then_break (sim_ifdef _ s hs (fun s1 h1 => sim_assign_new w _ _ (by rfl) s1 h1))
  · refine sim_then_break (sim_ifdef _ s hs (fun s1 h1 => ?_))
    simp only [if_true, Bool.false_eq_true, if_false]
    exact sim_assign_new w _ _ (by rfl) s1 h1
  · exact sim_then_break (sim_ifdef _ s hs (fun s1 h1 => sim_assign_new w _ _ (by rfl) s1 h1))
  · exact sim_refl _

theorem first_kind_same_for_both (b : BuildConfig) (w : World) (params : OmSettings) :
    first_kind (DatabaseBuilder.create b w params true).trace =
      first_kind (DatabaseBuilder.create b w params false).trace := by
  cases hg : params.get "backend" with
  | error e => rw [create_no_backend b w params true e hg, create_no_backend b w params false e hg]
  | ok backend =>
    have hsim := sim_switch_dbtype b w backend
      (static_cast (map_string_to_value database_strings backend)) ⟨params, params, none, []⟩ rfl
    simp only [DatabaseBuilder.create, hg, check_and_return_trace]
    rcases hsim with ⟨heq, _⟩ | ⟨_, hk⟩
    · rw [heq]
    · exact hk

/-! ## Claims -/

/-- Claim C1 (fails on the code): the names of `database_strings` are not in
strictly ascending order. The entries at positions 4 and 5 are "remote" and
"quartz", and "remote" is not less than "quartz", so the chain of adjacent
comparisons over the real entries does not hold. The names are nevertheless
pairwise different. -/
theorem database_strings_not_in_order :
    (entry_names database_strings).get? 4 = some "remote" ∧
    (entry_names database_strings).get? 5 = some "quartz" ∧
    ¬ ("remote" < "quartz") ∧
    ¬ List.Chain' (fun a b : String => a < b) (entry_names database_strings) ∧
    (entry_names database_strings).Nodup := by
  rw [entry_names_database_strings]
  refine ⟨rfl, rfl, ?_, ?_, by decide⟩
  · simp [String.lt_iff]
    decide
  · simp [String.lt_iff]
    decide

/-- Claim C2: for every string, the lookup in `database_strings` yields the
code registered for it when it is, character for character, one of auto, da,
db, inmemory, remote, quartz, sleepycat, and the code of `DBTYPE_NULL` for
every other string, among them the empty string and "Auto". -/
theorem map_string_to_value_resolves :
    (∀ name : String, map_string_to_value database_strings name =
      if name = "auto" then DBTYPE_AUTO.code
      else if name = "da" then DBTYPE_MUSCAT36_DA.code
      else if name = "db" then DBTYPE_MUSCAT36_DB.code
      else if name = "inmemory" then DBTYPE_INMEMORY.code
      else if name = "remote" then DBTYPE_REMOTE.code
      else if name = "quartz" then DBTYPE_QUARTZ.code
      else if name = "sleepycat" then DBTYPE_SLEEPYCAT.code
      else DBTYPE_NULL.code) ∧
    map_string_to_value database_strings "" = DBTYPE_NULL.code ∧
    map_string_to_value database_strings "Auto" = DBTYPE_NULL.code :=
  ⟨lookup_database_strings, by decide, by decide⟩

/-- Claim C3: when the `backend` value of the settings is not a name of the
table, then in every build and every world, for both values of `readonly`,
`create` ends in `OmInvalidArgumentError` and its trace is empty: no
constructor was called and no file was checked for existence. -/
theorem create_unregistered_name (b : BuildConfig) (w : World) (params : OmSettings)
    (readonly : Bool) (name : String) (hget : params.get "backend" = Except.ok name)
    (hname : name ∉ entry_names database_strings) :
    DatabaseBuilder.create b w params readonly =
      ⟨params, [], Except.error (OmError.OmInvalidArgumentError
        ("Unknown database type \x60" ++ name ++ "\x27"))⟩ := by
  simp only [DatabaseBuilder.create, hget, dbtype_unregistered name hname, switch_dbtype,
    check_and_return]

theorem create_unregistered_name_witness :
    DatabaseBuilder.create build_all (world_with ["/data/x/record_DB"])
        (settings_backend "bogus") false =
      ⟨settings_backend "bogus", [], Except.error (OmError.OmInvalidArgumentError
        ("Unknown database type \x60" ++ "bogus" ++ "\x27"))⟩ :=
  create_unregistered_name build_all (world_with ["/data/x/record_DB"])
    (settings_backend "bogus") false "bogus" (by decide) (by decide)

/-- Counterexample to claim C4 as stated: in a build with the Sleepycat backend,
with `backend = auto` and no file at all on disk, `create` constructs a
`SleepycatDatabase` and returns it instead of failing. -/
theorem create_auto_no_markers_sleepycat_default :
    DatabaseBuilder.create build_sleepycat (world_with []) (settings_auto "/empty") true =
      ⟨settings_auto "/empty",
        [Event.construct (CtorCall.SleepycatDatabase
          ((settings_auto "/empty").set "sleepycat_dir" (OmSettingValue.str "/empty")) true)],
        Except.ok (some ⟨CtorCall.SleepycatDatabase
          ((settings_auto "/empty").set "sleepycat_dir" (OmSettingValue.str "/empty")) true⟩)⟩ := by
  decide

/-- Claim C4, amended: with `backend = auto`, the Sleepycat backend not
compiled in, and none of the marker sets present under `auto_dir` (not both R
and T, no DB, no DB.da, no record_DB), `create` ends in
`OmFeatureUnavailableError` and calls no constructor, whatever else is
compiled in and for both values of `readonly`. -/
theorem create_auto_no_markers (b : BuildConfig) (w : World) (params : OmSettings)
    (readonly : Bool) (dir : String)
    (hget : params.get "backend" = Except.ok "auto")
    (hdir : params.get "auto_dir" = Except.ok dir)
    (hS : b.MUS_BUILD_BACKEND_SLEEPYCAT = false)
    (hRT : ¬ (w.fs (dir ++ "/R") = true ∧ w.fs (dir ++ "/T") = true))
    (hDB : w.fs (dir ++ "/DB") = false)
    (hDBda : w.fs (dir ++ "/DB.da") = false)
    (hrec : w.fs (dir ++ "/record_DB") = false) :
    (DatabaseBuilder.create b w params readonly).result =
        Except.error (OmError.OmFeatureUnavailableError no_database_msg) ∧
      constructor_calls (DatabaseBuilder.create b w params readonly).trace = [] := by
  simp only [DatabaseBuilder.create, hget, dbtype_auto, switch_dbtype, case_auto, hdir, hS]
  cases hM : b.MUS_BUILD_BACKEND_MUSCAT36 <;> cases hQ : b.MUS_BUILD_BACKEND_QUARTZ <;>
    cases hR : w.fs (dir ++ "/R") <;> cases hT : w.fs (dir ++ "/T") <;>
    simp_all [ifdef, and_then, then_break, rule_da, rule_db, rule_quartz, file_exists,
      check_and_return, constructor_calls]

theorem create_auto_no_markers_witness :
    (DatabaseBuilder.create build_no_sleepycat (world_with ["/empty/R", "/empty/keyfile"])
        (settings_auto "/empty") false).result =
        Except.error (OmError.OmFeatureUnavailableError no_database_msg) ∧
      constructor_calls (DatabaseBuilder.create build_no_sleepycat
        (world_with ["/empty/R", "/empty/keyfile"]) (settings_auto "/empty") false).trace = [] :=
  create_auto_no_markers build_no_sleepycat (world_with ["/empty/R", "/empty/keyfile"])
    (settings_auto "/empty") false "/empty" (by decide) (by decide) (by decide) (by decide)
    (by decide) (by decide) (by decide)

/-- Claim C5 (fails on the code): in a build with Quartz and Sleepycat, with
`backend = auto` and `auto_dir/record_DB` present, `create` constructs the
Quartz database, then runs on into the Sleepycat lines, constructs a
`SleepycatDatabase` and returns that one. -/
theorem create_auto_record_DB_sleepycat_overrides :
    DatabaseBuilder.create build_quartz_sleepycat (world_with ["/data/x/record_DB"])
        (settings_auto "/data/x") true =
      ⟨settings_auto "/data/x",
        [Event.file_exists "/data/x/record_DB",
         Event.construct (CtorCall.QuartzDatabase
          ((settings_auto "/data/x").set "quartz_dir" (OmSettingValue.str "/data/x"))),
         Event.construct (CtorCall.SleepycatDatabase
          (((settings_auto "/data/x").set "quartz_dir" (OmSettingValue.str "/data/x")).set
            "sleepycat_dir" (OmSettingValue.str "/data/x")) true)],
        Except.ok (some ⟨CtorCall.SleepycatDatabase
          (((settings_auto "/data/x").set "quartz_dir" (OmSettingValue.str "/data/x")).set
            "sleepycat_dir" (OmSettingValue.str "/data/x")) true⟩)⟩ := by
  decide

/-- Claim C6: with `backend = auto`, Muscat36 compiled in and both
`auto_dir/R` and `auto_dir/T` present, the whole trace of `create` is the
checks of R, T and keyfile followed by the one call of the `DADatabase`
constructor, whatever other files exist and whatever else is compiled in; the
result is the instance that call yields (or the error it raises). DB, DB.da
and record_DB are not checked and no other constructor is called. -/
theorem create_auto_R_and_T_constructs_DA (b : BuildConfig) (w : World)
    (params : OmSettings) (readonly : Bool) (dir : String)
    (hget : params.get "backend" = Except.ok "auto")
    (hdir : params.get "auto_dir" = Except.ok dir)
    (hM : b.MUS_BUILD_BACKEND_MUSCAT36 = true)
    (hR : w.fs (dir ++ "/R") = true) (hT : w.fs (dir ++ "/T") = true) :
    (DatabaseBuilder.create b w params readonly).trace =
        [Event.file_exists (dir ++ "/R"), Event.file_exists (dir ++ "/T"),
         Event.file_exists (dir ++ "/keyfile"),
         Event.construct (CtorCall.DADatabase (da_rule_settings w params dir) readonly)] ∧
      (DatabaseBuilder.create b w params readonly).result =
        match w.ctor_raises (CtorCall.DADatabase (da_rule_settings w params dir) readonly) with
        | none =>
          Except.ok (some ⟨CtorCall.DADatabase (da_rule_settings w params dir) readonly⟩)
        | some e => Except.error e := by
  cases hc : w.ctor_raises (CtorCall.DADatabase (da_rule_settings w params dir) readonly) <;>
    cases hK : w.fs (dir ++ "/keyfile") <;>
    simp only [da_rule_settings, hK, Bool.false_eq_true, if_true, if_false] at hc <;>
    simp [DatabaseBuilder.create, hget, dbtype_auto, switch_dbtype, case_auto, hdir, hM,
      ifdef, rule_da, file_exists, hR, hT, keyfile_lines, hK, set_myparams, assign_new, hc,
      and_then, then_break, check_and_return, da_rule_settings]

theorem create_auto_R_and_T_constructs_DA_witness :
    (DatabaseBuilder.create build_all
        (world_with ["/data/x/R", "/data/x/T", "/data/x/DB", "/data/x/record_DB"])
        (settings_auto "/data/x") false).trace =
        [Event.file_exists ("/data/x" ++ "/R"), Event.file_exists ("/data/x" ++ "/T"),
         Event.file_exists ("/data/x" ++ "/keyfile"),
         Event.construct (CtorCall.DADatabase (da_rule_settings
           (world_with ["/data/x/R", "/data/x/T", "/data/x/DB", "/data/x/record_DB"])
           (settings_auto "/data/x") "/data/x") false)] ∧
      (DatabaseBuilder.create build_all
        (world_with ["/data/x/R", "/data/x/T", "/data/x/DB", "/data/x/record_DB"])
        (settings_auto "/data/x") false).result =
        match (world_with ["/data/x/R", "/data/x/T", "/data/x/DB",
            "/data/x/record_DB"]).ctor_raises
          (CtorCall.DADatabase (da_rule_settings
            (world_with ["/data/x/R", "/data/x/T", "/data/x/DB", "/data/x/record_DB"])
            (settings_auto "/data/x") "/data/x") false) with
        | none =>
          Except.ok (some ⟨CtorCall.DADatabase (da_rule_settings
            (world_with ["/data/x/R", "/data/x/T", "/data/x/DB", "/data/x/record_DB"])
            (settings_auto "/data/x") "/data/x") false⟩)
        | some e => Except.error e :=
  create_auto_R_and_T_constructs_DA build_all
    (world_with ["/data/x/R", "/data/x/T", "/data/x/DB", "/data/x/record_DB"])
    (settings_auto "/data/x") false "/data/x" (by decide) (by decide) (by decide) (by decide)
    (by decide)

/-- Claim C7: when the settings name one of da, db, inmemory, remote, quartz,
sleepycat and the backend of that name is not compiled in, `create` ends in
`OmFeatureUnavailableError` (not `OmInvalidArgumentError`) and its trace is
empty: no constructor was called. The kinds da and db share one switch. -/
theorem create_kind_not_compiled_in (b : BuildConfig) (w : World) (params : OmSettings)
    (readonly : Bool) (name : String) (hget : params.get "backend" = Except.ok name)
    (hoff : (name = "da" ∧ b.MUS_BUILD_BACKEND_MUSCAT36 = false) ∨
      (name = "db" ∧ b.MUS_BUILD_BACKEND_MUSCAT36 = false) ∨
      (name = "inmemory" ∧ b.MUS_BUILD_BACKEND_INMEMORY = false) ∨
      (name = "remote" ∧ b.MUS_BUILD_BACKEND_REMOTE = false) ∨
      (name = "quartz" ∧ b.MUS_BUILD_BACKEND_QUARTZ = false) ∨
      (name = "sleepycat" ∧ b.MUS_BUILD_BACKEND_SLEEPYCAT = false)) :
    DatabaseBuilder.create b w params readonly =
      ⟨params, [], Except.error (OmError.OmFeatureUnavailableError no_database_msg)⟩ := by
  rcases hoff with ⟨hn, hb⟩ | ⟨hn, hb⟩ | ⟨hn, hb⟩ | ⟨hn, hb⟩ | ⟨hn, hb⟩ | ⟨hn, hb⟩ <;>
    subst hn
  · simp [DatabaseBuilder.create, hget, dbtype_da, switch_dbtype, ifdef, hb, then_break,
      check_and_return]
  · simp [DatabaseBuilder.create, hget, dbtype_db, switch_dbtype, ifdef, hb, then_break,
      check_and_return]
  · simp [DatabaseBuilder.create, hget, dbtype_inmemory, switch_dbtype, ifdef, hb, then_break,
      check_and_return]
  · simp [DatabaseBuilder.create, hget, dbtype_remote, switch_dbtype, ifdef, hb, then_break,
      check_and_return]
  · simp [DatabaseBuilder.create, hget, dbtype_quartz, switch_dbtype, ifdef, hb, then_break,
      check_and_return]
  · simp [DatabaseBuilder.create, hget, dbtype_sleepycat, switch_dbtype, ifdef, hb, then_break,
      check_and_return]

theorem create_kind_not_compiled_in_witness :
    DatabaseBuilder.create build_quartz (world_with []) (settings_backend "remote") true =
      ⟨settings_backend "remote", [],
        Except.error (OmError.OmFeatureUnavailableError no_database_msg)⟩ :=
  create_kind_not_compiled_in build_quartz (world_with []) (settings_backend "remote") true
    "remote" (by decide) (by decide)

/-- Claim C8: whenever `create` returns a handle, the handle is not null and
refers to an instance that a constructor call of the trace has yielded.
Contrapositively, a call in which no constructor yielded an instance does not
return. -/
theorem create_returns_constructed_instance (b : BuildConfig) (w : World)
    (params : OmSettings) (readonly : Bool) (handle : RefCntPtr)
    (hret : (DatabaseBuilder.create b w params readonly).result = Except.ok handle) :
    ∃ d : Database, handle = some d ∧
      Event.construct d.made_by ∈ (DatabaseBuilder.create b w params readonly).trace ∧
      w.ctor_raises d.made_by = none := by
  unfold DatabaseBuilder.create at hret ⊢
  cases hg : params.get "backend" with
  | error e => rw [hg] at hret; cases hret
  | ok backend =>
    rw [hg] at hret
    dsimp only at hret ⊢
    have hinv := inv_switch_dbtype (w := w) b readonly backend
      (static_cast (map_string_to_value database_strings backend)) _ (inv_initial w params)
    revert hret hinv
    generalize switch_dbtype b w readonly backend
      (static_cast (map_string_to_value database_strings backend)) _ = r
    intro hret hinv
    unfold check_and_return at hret ⊢
    cases hdb : r.1.database with
    | none =>
      cases hf : r.2 <;> simp [hf, hdb] at hret
    | some d =>
      have hd := hinv.db_made d hdb
      cases hf : r.2 <;> simp [hf, hdb] at hret ⊢
      · exact ⟨d, hret.symm, hd⟩
      · exact ⟨d, hret.symm, hd⟩

theorem create_returns_constructed_instance_witness :
    ∃ d : Database,
      some (Database.mk (CtorCall.InMemoryDatabase (settings_backend "inmemory") false)) =
        some d ∧
      Event.construct d.made_by ∈
        (DatabaseBuilder.create build_all (world_with []) (settings_backend "inmemory")
          false).trace ∧
      (world_with []).ctor_raises d.made_by = none :=
  create_returns_constructed_instance build_all (world_with []) (settings_backend "inmemory")
    false (some ⟨CtorCall.InMemoryDatabase (settings_backend "inmemory") false⟩) (by decide)

/-- Claim C9: after every call of `create`, returning or failing, the caller's
settings bag is the one passed in; and the settings handed to any constructor
agree with the caller's on every key that is not one of the derived keys, so
the derived keys are the only difference of the private copy. -/
theorem create_leaves_params_unchanged (b : BuildConfig) (w : World) (params : OmSettings)
    (readonly : Bool) :
    (DatabaseBuilder.create b w params readonly).params = params ∧
      ∀ c ∈ constructor_calls (DatabaseBuilder.create b w params readonly).trace,
        ∀ key, key ∉ derived_keys → c.settings.find key = params.find key := by
  unfold DatabaseBuilder.create
  cases hg : params.get "backend" with
  | error e => exact ⟨rfl, fun c hc => by cases hc⟩
  | ok backend =>
    dsimp only
    have hinv := inv_switch_dbtype (w := w) b readonly backend
      (static_cast (map_string_to_value database_strings backend)) _ (inv_initial w params)
    revert hinv
    generalize switch_dbtype b w readonly backend
      (static_cast (map_string_to_value database_strings backend)) _ = r
    intro hinv
    have hp : (check_and_return r).params = r.1.params := by
      unfold check_and_return
      split
      · rfl
      · split <;> rfl
    have ht : (check_and_return r).trace = r.1.trace := by
      unfold check_and_return
      split
      · rfl
      · split <;> rfl
    rw [hp, ht]
    exact ⟨hinv.params_eq, fun c hc => hinv.calls_agree c (mem_constructor_calls.mp hc)⟩

theorem create_leaves_params_unchanged_witness :
    (CtorCall.QuartzDatabase
        ((settings_auto "/data/x").set "quartz_dir" (OmSettingValue.str "/data/x"))).settings.find
        "auto_dir" = (settings_auto "/data/x").find "auto_dir" :=
  (create_leaves_params_unchanged build_quartz (world_with ["/data/x/record_DB"])
    (settings_auto "/data/x") true).2 _ (by decide) "auto_dir" (by decide)

/-- Claim C10 (fails on the code): in a build with Quartz and Sleepycat, with
`backend = auto`, `readonly = false` and `auto_dir/record_DB` present, one call
of `create` calls two constructors, `QuartzWritableDatabase` and then
`SleepycatDatabase`. -/
theorem create_auto_calls_two_constructors :
    constructor_calls (DatabaseBuilder.create build_quartz_sleepycat
        (world_with ["/data/x/record_DB"]) (settings_auto "/data/x") false).trace =
      [CtorCall.QuartzWritableDatabase
          ((settings_auto "/data/x").set "quartz_dir" (OmSettingValue.str "/data/x")),
       CtorCall.SleepycatDatabase
          (((settings_auto "/data/x").set "quartz_dir" (OmSettingValue.str "/data/x")).set
            "sleepycat_dir" (OmSettingValue.str "/data/x")) false] := by
  decide

/-- Claim C11: when the settings name one of da, db, inmemory, remote, quartz,
sleepycat and that backend is compiled in, the whole trace of `create` is the
one call of the constructor of that kind (for quartz, `QuartzDatabase` when
`readonly` and `QuartzWritableDatabase` otherwise) with the caller's settings
as they are: no file is checked for existence and no derived key is added.
The result is the instance the call yields, or the error it raises. Nothing is
assumed about `auto_dir`, which is not read. -/
theorem create_explicit_kind (b : BuildConfig) (w : World) (params : OmSettings)
    (readonly : Bool) (name : String) (call : CtorCall)
    (hget : params.get "backend" = Except.ok name)
    (hkind : (name = "da" ∧ b.MUS_BUILD_BACKEND_MUSCAT36 = true ∧
        call = CtorCall.DADatabase params readonly) ∨
      (name = "db" ∧ b.MUS_BUILD_BACKEND_MUSCAT36 = true ∧
        call = CtorCall.DBDatabase params readonly) ∨
      (name = "inmemory" ∧ b.MUS_BUILD_BACKEND_INMEMORY = true ∧
        call = CtorCall.InMemoryDatabase params readonly) ∨
      (name = "remote" ∧ b.MUS_BUILD_BACKEND_REMOTE = true ∧
        call = CtorCall.NetworkDatabase params readonly) ∨
      (name = "quartz" ∧ b.MUS_BUILD_BACKEND_QUARTZ = true ∧
        call = (if readonly then CtorCall.QuartzDatabase params
          else CtorCall.QuartzWritableDatabase params)) ∨
      (name = "sleepycat" ∧ b.MUS_BUILD_BACKEND_SLEEPYCAT = true ∧
        call = CtorCall.SleepycatDatabase params readonly)) :
    DatabaseBuilder.create b w params readonly =
      ⟨params, [Event.construct call],
        match w.ctor_raises call with
        | none => Except.ok (some ⟨call⟩)
        | some e => Except.error e⟩ := by
  rw [← explicit_kind_outcome w params call]
  rcases hkind with ⟨hn, hb, hc⟩ | ⟨hn, hb, hc⟩ | ⟨hn, hb, hc⟩ | ⟨hn, hb, hc⟩ |
    ⟨hn, hb, hc⟩ | ⟨hn, hb, hc⟩ <;> subst hn <;> subst hc
  · simp only [DatabaseBuilder.create, hget, dbtype_da, switch_dbtype, ifdef, hb, if_true]
  · simp only [DatabaseBuilder.create, hget, dbtype_db, switch_dbtype, ifdef, hb, if_true]
  · simp only [DatabaseBuilder.create, hget, dbtype_inmemory, switch_dbtype, ifdef, hb,
      if_true]
  · simp only [DatabaseBuilder.create, hget, dbtype_remote, switch_dbtype, ifdef, hb, if_true]
  · cases readonly <;>
      simp [DatabaseBuilder.create, hget, dbtype_quartz, switch_dbtype, ifdef, hb]
  · simp only [DatabaseBuilder.create, hget, dbtype_sleepycat, switch_dbtype, ifdef, hb,
      if_true]

theorem create_explicit_kind_witness :
    DatabaseBuilder.create build_all (world_with []) (settings_backend "inmemory") false =
      ⟨settings_backend "inmemory",
        [Event.construct (CtorCall.InMemoryDatabase (settings_backend "inmemory") false)],
        match (world_with []).ctor_raises
          (CtorCall.InMemoryDatabase (settings_backend "inmemory") false) with
        | none =>
          Except.ok (some ⟨CtorCall.InMemoryDatabase (settings_backend "inmemory") false⟩)
        | some e => Except.error e⟩ :=
  create_explicit_kind build_all (world_with []) (settings_backend "inmemory") false
    "inmemory" (CtorCall.InMemoryDatabase (settings_backend "inmemory") false) (by decide)
    (by decide)

/-- Claim C12: when a constructor called by `create` raises an error e,
`create` ends in exactly e, no handle is returned, and that call is the last
event of the trace: no constructor is called after it, and every constructor
called before it has yielded an instance. -/
theorem create_propagates_constructor_error (b : BuildConfig) (w : World)
    (params : OmSettings) (readonly : Bool) (c : CtorCall) (e : OmError)
    (hcall : Event.construct c ∈ (DatabaseBuilder.create b w params readonly).trace)
    (hraise : w.ctor_raises c = some e) :
    (DatabaseBuilder.create b w params readonly).result = Except.error e ∧
      ∃ before, (DatabaseBuilder.create b w params readonly).trace =
          before ++ [Event.construct c] ∧
        ∀ c2, Event.construct c2 ∈ before → w.ctor_raises c2 = none := by
  cases hg : params.get "backend" with
  | error e0 =>
    rw [create_no_backend b w params readonly e0 hg] at hcall
    cases hcall
  | ok backend =>
    obtain ⟨r, hr, hpost⟩ := create_post b w params readonly backend hg
    rw [hr] at hcall ⊢
    rw [check_and_return_trace] at hcall ⊢
    have hclean : ¬ Pre w readonly r.1 := fun hp => by
      have := (hp c hcall).2
      rw [hraise] at this
      cases this
    unfold Post at hpost
    cases hf : r.2 with
    | next => rw [hf] at hpost; exact absurd hpost hclean
    | break_ => rw [hf] at hpost; exact absurd hpost hclean
    | throw e0 =>
      rw [hf] at hpost
      rcases hpost with ⟨hp, _⟩ | ⟨before, c0, htrace, _, hr0, hbefore⟩
      · exact absurd hp hclean
      · rw [htrace, List.mem_append, List.mem_singleton] at hcall
        rcases hcall with hmem | heq
        · have := (hbefore c hmem).2
          rw [hraise] at this
          cases this
        · cases heq
          rw [hraise] at hr0
          cases hr0
          refine ⟨?_, before, htrace, fun c2 h2 => (hbefore c2 h2).2⟩
          simp only [check_and_return, hf]

theorem create_propagates_constructor_error_witness :
    (DatabaseBuilder.create build_all (world_refusing ["/data/x/R", "/data/x/T"])
        (settings_auto "/data/x") true).result =
        Except.error (OmError.BackendError "cannot open") ∧
      ∃ before, (DatabaseBuilder.create build_all (world_refusing ["/data/x/R", "/data/x/T"])
          (settings_auto "/data/x") true).trace =
          before ++ [Event.construct (CtorCall.DADatabase
            (da_rule_settings (world_refusing ["/data/x/R", "/data/x/T"])
              (settings_auto "/data/x") "/data/x") true)] ∧
        ∀ c2, Event.construct c2 ∈ before →
          (world_refusing ["/data/x/R", "/data/x/T"]).ctor_raises c2 = none :=
  create_propagates_constructor_error build_all (world_refusing ["/data/x/R", "/data/x/T"])
    (settings_auto "/data/x") true
    (CtorCall.DADatabase (da_rule_settings (world_refusing ["/data/x/R", "/data/x/T"])
      (settings_auto "/data/x") "/data/x") true)
    (OmError.BackendError "cannot open") (by decide) (by decide)

/-- Counterexample to claim C13 as stated: for the unregistered name "bogus"
the message of the error is "Unknown database type" followed by the name
between a backquote and a quote, not "unknown backend type: bogus". -/
theorem create_bogus_message :
    (DatabaseBuilder.create build_all (world_with []) (settings_backend "bogus") true).result =
        Except.error (OmError.OmInvalidArgumentError "Unknown database type \x60bogus\x27") ∧
      (DatabaseBuilder.create build_all (world_with []) (settings_backend "bogus") true).result ≠
        Except.error (OmError.OmInvalidArgumentError ("unknown backend type: " ++ "bogus")) := by
  decide

/-- Claim C13, amended: for every unregistered backend name n, `create` ends
in `OmInvalidArgumentError` with the message "Unknown database type", a
blank, a backquote, n, and a closing quote. -/
theorem create_unregistered_name_message (b : BuildConfig) (w : World) (params : OmSettings)
    (readonly : Bool) (n : String) (hget : params.get "backend" = Except.ok n)
    (hn : n ∉ entry_names database_strings) :
    (DatabaseBuilder.create b w params readonly).result =
      Except.error (OmError.OmInvalidArgumentError
        ("Unknown database type \x60" ++ n ++ "\x27")) := by
  simp only [DatabaseBuilder.create, hget, dbtype_unregistered n hn, switch_dbtype,
    check_and_return]

theorem create_unregistered_name_message_witness :
    (DatabaseBuilder.create build_none (world_with []) (settings_backend "Auto") false).result =
      Except.error (OmError.OmInvalidArgumentError
        ("Unknown database type \x60" ++ "Auto" ++ "\x27")) :=
  create_unregistered_name_message build_none (world_with []) (settings_backend "Auto") false
    "Auto" (by decide) (by decide)

/-- Claim C14: with `backend = auto`, Muscat36 compiled in and both
`auto_dir/R` and `auto_dir/T` present, the one constructor call is
`DADatabase` with `readonly` as given and with settings in which
`m36_record_file` is `auto_dir/R`, `m36_term_file` is `auto_dir/T`,
`m36_heavyduty` is true, `m36_key_file` is `auto_dir/keyfile` when that file
exists and the caller's value (if any) when it does not, and every other key
is as in the caller's settings. -/
theorem create_auto_DA_settings (b : BuildConfig) (w : World) (params : OmSettings)
    (readonly : Bool) (dir : String)
    (hget : params.get "backend" = Except.ok "auto")
    (hdir : params.get "auto_dir" = Except.ok dir)
    (hM : b.MUS_BUILD_BACKEND_MUSCAT36 = true)
    (hR : w.fs (dir ++ "/R") = true) (hT : w.fs (dir ++ "/T") = true) :
    ∃ myparams : OmSettings,
      constructor_calls (DatabaseBuilder.create b w params readonly).trace =
        [CtorCall.DADatabase myparams readonly] ∧
      myparams.find "m36_record_file" = some (OmSettingValue.str (dir ++ "/R")) ∧
      myparams.find "m36_term_file" = some (OmSettingValue.str (dir ++ "/T")) ∧
      myparams.find "m36_heavyduty" = some (OmSettingValue.bool true) ∧
      myparams.find "m36_key_file" =
        (if w.fs (dir ++ "/keyfile") then some (OmSettingValue.str (dir ++ "/keyfile"))
         else params.find "m36_key_file") ∧
      ∀ key, key ∉ ["m36_record_file", "m36_term_file", "m36_heavyduty", "m36_key_file"] →
        myparams.find key = params.find key := by
  refine ⟨da_rule_settings w params dir, ?_, ?_, ?_, ?_, ?_, ?_⟩
  · rw [auto_da_outcome b w params readonly dir hget hdir hM hR hT]
    rfl
  · rw [da_rule_settings_find]; simp
  · rw [da_rule_settings_find]; simp
  · rw [da_rule_settings_find]; simp
  · rw [da_rule_settings_find]
    cases hK : w.fs (dir ++ "/keyfile") <;> simp
  · intro key hkey
    simp only [List.mem_cons, List.mem_singleton, List.not_mem_nil, or_false, not_or] at hkey
    rw [da_rule_settings_find]
    simp [hkey.1, hkey.2.1, hkey.2.2.1, hkey.2.2.2]

theorem create_auto_DA_settings_witness :
    ∃ myparams : OmSettings,
      constructor_calls (DatabaseBuilder.create build_all
          (world_with ["/data/x/R", "/data/x/T", "/data/x/keyfile"])
          (settings_auto "/data/x") true).trace =
        [CtorCall.DADatabase myparams true] ∧
      myparams.find "m36_record_file" = some (OmSettingValue.str ("/data/x" ++ "/R")) ∧
      myparams.find "m36_term_file" = some (OmSettingValue.str ("/data/x" ++ "/T")) ∧
      myparams.find "m36_heavyduty" = some (OmSettingValue.bool true) ∧
      myparams.find "m36_key_file" =
        (if (world_with ["/data/x/R", "/data/x/T", "/data/x/keyfile"]).fs
            ("/data/x" ++ "/keyfile") then
          some (OmSettingValue.str ("/data/x" ++ "/keyfile"))
         else (settings_auto "/data/x").find "m36_key_file") ∧
      ∀ key, key ∉ ["m36_record_file", "m36_term_file", "m36_heavyduty", "m36_key_file"] →
        myparams.find key = (settings_auto "/data/x").find key :=
  create_auto_DA_settings build_all (world_with ["/data/x/R", "/data/x/T", "/data/x/keyfile"])
    (settings_auto "/data/x") true "/data/x" (by decide) (by decide) (by decide) (by decide)
    (by decide)

/-- Claim C15: every constructor call of a run matches `readonly`: a
`QuartzDatabase` is constructed only when `readonly` is true, a
`QuartzWritableDatabase` only when it is false, and every other constructor
receives `readonly` as its argument. Moreover the kind of the first
constructor called is the same for both values of `readonly`, the two Quartz
classes counting as one kind. -/
theorem create_quartz_variant_by_readonly (b : BuildConfig) (w : World)
    (params : OmSettings) (readonly : Bool) :
    (∀ c ∈ constructor_calls (DatabaseBuilder.create b w params readonly).trace,
      match c with
      | CtorCall.QuartzDatabase _ => readonly = true
      | CtorCall.QuartzWritableDatabase _ => readonly = false
      | CtorCall.DADatabase _ r => r = readonly
      | CtorCall.DBDatabase _ r => r = readonly
      | CtorCall.InMemoryDatabase _ r => r = readonly
      | CtorCall.SleepycatDatabase _ r => r = readonly
      | CtorCall.NetworkDatabase _ r => r = readonly) ∧
      first_kind (DatabaseBuilder.create b w params true).trace =
        first_kind (DatabaseBuilder.create b w params false).trace := by
  refine ⟨?_, first_kind_same_for_both b w params⟩
  intro c hc
  rw [mem_constructor_calls] at hc
  have hflag : c.opens_readonly = readonly := by
    cases hg : params.get "backend" with
    | error e0 =>
      rw [create_no_backend b w params readonly e0 hg] at hc
      cases hc
    | ok backend =>
      obtain ⟨r, hr, hpost⟩ := create_post b w params readonly backend hg
      rw [hr, check_and_return_trace] at hc
      unfold Post at hpost
      cases hf : r.2 with
      | next => rw [hf] at hpost; exact (hpost c hc).1
      | break_ => rw [hf] at hpost; exact (hpost c hc).1
      | throw e0 =>
        rw [hf] at hpost
        rcases hpost with ⟨hp, _⟩ | ⟨before, c0, htrace, hc0, _, hbefore⟩
        · exact (hp c hc).1
        · rw [htrace, List.mem_append, List.mem_singleton] at hc
          rcases hc with hmem | heq
          · exact (hbefore c hmem).1
          · cases heq
            exact hc0
  cases c <;> simp only [CtorCall.opens_readonly] at hflag <;>
    first | exact hflag | exact hflag.symm

theorem create_quartz_variant_by_readonly_witness :
    (match CtorCall.QuartzWritableDatabase
        ((settings_auto "/data/x").set "quartz_dir" (OmSettingValue.str "/data/x")) with
      | CtorCall.QuartzDatabase _ => false = true
      | CtorCall.QuartzWritableDatabase _ => false = false
      | CtorCall.DADatabase _ r => r = false
      | CtorCall.DBDatabase _ r => r = false
      | CtorCall.InMemoryDatabase _ r => r = false
      | CtorCall.SleepycatDatabase _ r => r = false
      | CtorCall.NetworkDatabase _ r => r = false) :=
  (create_quartz_variant_by_readonly build_quartz (world_with ["/data/x/record_DB"])
    (settings_auto "/data/x") false).1
    (CtorCall.QuartzWritableDatabase
      ((settings_auto "/data/x").set "quartz_dir" (OmSettingValue.str "/data/x")))
    (by decide)

/-- Claim C16: with `backend = auto` and the Sleepycat backend compiled in,
when no Muscat36 rule matches (Muscat36 not compiled in, or not both R and T,
no DB, no DB.da) a returned handle is always the `SleepycatDatabase`
constructed with `sleepycat_dir = auto_dir`, whether or not record_DB exists
and whether or not Quartz is compiled in. And in such a build every failure of
the auto path is an error raised by a constructor of the trace, never the
`OmFeatureUnavailableError` of the null check. -/
theorem create_auto_sleepycat_wins (b : BuildConfig) (w : World) (params : OmSettings)
    (readonly : Bool) (dir : String)
    (hget : params.get "backend" = Except.ok "auto")
    (hdir : params.get "auto_dir" = Except.ok dir)
    (hS : b.MUS_BUILD_BACKEND_SLEEPYCAT = true) :
    ((b.MUS_BUILD_BACKEND_MUSCAT36 = false ∨
        (¬ (w.fs (dir ++ "/R") = true ∧ w.fs (dir ++ "/T") = true) ∧
          w.fs (dir ++ "/DB") = false ∧ w.fs (dir ++ "/DB.da") = false)) →
      ∀ handle, (DatabaseBuilder.create b w params readonly).result = Except.ok handle →
        ∃ myparams : OmSettings,
          handle = some ⟨CtorCall.SleepycatDatabase myparams readonly⟩ ∧
          myparams.find "sleepycat_dir" = some (OmSettingValue.str dir)) ∧
      (∀ e, (DatabaseBuilder.create b w params readonly).result = Except.error e →
        ∃ c, Event.construct c ∈ (DatabaseBuilder.create b w params readonly).trace ∧
          w.ctor_raises c = some e) := by
  rw [auto_unfold b w params readonly dir hget hdir, hS]
  constructor
  · intro hno
    obtain ⟨checks, _, hblock⟩ := muscat36_block_no_match b w readonly dir
      ⟨params, params, none, []⟩ hno
    rw [hblock, and_then_pair_next]
    generalize (⟨params, params, none, [] ++ checks⟩ : Locals) = s1
    have hflow := quartz_block_flow w dir readonly b.MUS_BUILD_BACKEND_QUARTZ s1
    revert hflow
    generalize ifdef b.MUS_BUILD_BACKEND_QUARTZ (rule_quartz w dir readonly) s1 = rq
    intro hflow handle h
    rcases hflow with hn | ⟨e0, c0, ht, hmem, hraise⟩
    · have hsl : ifdef true (rule_sleepycat w dir readonly) rq.1 =
          rule_sleepycat w dir readonly rq.1 := rfl
      rw [and_then_next _ hn, hsl, sleepycat_default_outcome] at h
      dsimp only at h
      cases hc : w.ctor_raises (CtorCall.SleepycatDatabase
          (rq.1.myparams.set "sleepycat_dir" (OmSettingValue.str dir)) readonly) with
      | none =>
        rw [hc] at h
        cases h
        exact ⟨_, rfl, by simp [OmSettings.find_set]⟩
      | some e1 => rw [hc] at h; cases h
    · rw [and_then_throw _ ht, then_break_throw ht, check_and_return_throw ht] at h
      cases h
  · have hblock := rule_end_muscat36_block w dir readonly b.MUS_BUILD_BACKEND_MUSCAT36
      ⟨params, params, none, []⟩
    revert hblock
    generalize ifdef b.MUS_BUILD_BACKEND_MUSCAT36 (fun s => and_then (and_then
      (rule_da w dir readonly s) (rule_db w "/DB" dir readonly))
      (rule_db w "/DB.da" dir readonly)) ⟨params, params, none, []⟩ = r0
    intro hblock e h
    rcases hblock with hn | ⟨hb, hdb⟩ | ⟨e0, c0, ht, hmem, hraise⟩
    · rw [and_then_next _ hn] at h ⊢
      exact sleepycat_tail_errors w dir readonly _ _ e h
    · rw [and_then_break _ hb, and_then_break _ hb, then_break_break hb] at h
      unfold check_and_return at h
      rw [hb] at h
      simp only [hdb, if_false] at h
      cases h
    · rw [and_then_throw _ ht, and_then_throw _ ht, then_break_throw ht,
        check_and_return_throw ht] at h ⊢
      cases h
      exact ⟨c0, hmem, hraise⟩

theorem create_auto_sleepycat_wins_witness :
    ∃ myparams : OmSettings,
      (some ⟨CtorCall.SleepycatDatabase
          (((settings_auto "/data/x").set "quartz_dir" (OmSettingValue.str "/data/x")).set
            "sleepycat_dir" (OmSettingValue.str "/data/x")) true⟩ : RefCntPtr) =
        some ⟨CtorCall.SleepycatDatabase myparams true⟩ ∧
      myparams.find "sleepycat_dir" = some (OmSettingValue.str "/data/x") :=
  (create_auto_sleepycat_wins build_all (world_with ["/data/x/R", "/data/x/record_DB"])
    (settings_auto "/data/x") true "/data/x" (by decide) (by decide) (by decide)).1
    (Or.inr (by decide)) _ (by decide)

/-- Claim C17: with `backend = auto`, Muscat36 compiled in and the DA rule not
matching (R or T missing), if `auto_dir/DB` or `auto_dir/DB.da` exists then
`DBDatabase` is constructed with `m36_db_file` equal to `auto_dir/DB` when DB
exists (also when DB.da exists as well) and to `auto_dir/DB.da` otherwise, with
`m36_heavyduty` true and with `m36_key_file` equal to `auto_dir/keyfile` when
that file exists and the caller's value otherwise. The trace ends with that
call: record_DB is not checked and no Quartz or Sleepycat constructor is
called. The result is the instance the call yields, or the error it raises. -/
theorem create_auto_DB_rules (b : BuildConfig) (w : World) (params : OmSettings)
    (readonly : Bool) (dir : String)
    (hget : params.get "backend" = Except.ok "auto")
    (hdir : params.get "auto_dir" = Except.ok dir)
    (hM : b.MUS_BUILD_BACKEND_MUSCAT36 = true)
    (hRT : ¬ (w.fs (dir ++ "/R") = true ∧ w.fs (dir ++ "/T") = true))
    (hDB : w.fs (dir ++ "/DB") = true ∨ w.fs (dir ++ "/DB.da") = true) :
    ∃ myparams : OmSettings,
      (DatabaseBuilder.create b w params readonly).trace =
        [Event.file_exists (dir ++ "/R")] ++
          (if w.fs (dir ++ "/R") then [Event.file_exists (dir ++ "/T")] else []) ++
          [Event.file_exists (dir ++ "/DB")] ++
          (if w.fs (dir ++ "/DB") then [] else [Event.file_exists (dir ++ "/DB.da")]) ++
          [Event.file_exists (dir ++ "/keyfile"),
           Event.construct (CtorCall.DBDatabase myparams readonly)] ∧
      (DatabaseBuilder.create b w params readonly).result =
        (match w.ctor_raises (CtorCall.DBDatabase myparams readonly) with
         | none => Except.ok (some ⟨CtorCall.DBDatabase myparams readonly⟩)
         | some e => Except.error e) ∧
      myparams.find "m36_db_file" = some (OmSettingValue.str
        (dir ++ (if w.fs (dir ++ "/DB") then "/DB" else "/DB.da"))) ∧
      myparams.find "m36_heavyduty" = some (OmSettingValue.bool true) ∧
      myparams.find "m36_key_file" =
        (if w.fs (dir ++ "/keyfile") then some (OmSettingValue.str (dir ++ "/keyfile"))
         else params.find "m36_key_file") ∧
      ∀ key, key ∉ ["m36_db_file", "m36_heavyduty", "m36_key_file"] →
        myparams.find key = params.find key := by
  refine ⟨db_rule_settings w params dir (if w.fs (dir ++ "/DB") then "/DB" else "/DB.da"),
    ?_, ?_, ?_, ?_, ?_, ?_⟩
  · rw [auto_db_outcome b w params readonly dir hget hdir hM hRT hDB]
  · rw [auto_db_outcome b w params readonly dir hget hdir hM hRT hDB]
  · rw [db_rule_settings_find]; simp
  · rw [db_rule_settings_find]; simp
  · rw [db_rule_settings_find]
    cases hK : w.fs (dir ++ "/keyfile") <;> simp
  · intro key hkey
    simp only [List.mem_cons, List.mem_singleton, List.not_mem_nil, or_false, not_or] at hkey
    rw [db_rule_settings_find]
    simp [hkey.1, hkey.2.1, hkey.2.2]

theorem create_auto_DB_rules_witness :
    ∃ myparams : OmSettings,
      (DatabaseBuilder.create build_all
          (world_with ["/data/x/R", "/data/x/DB", "/data/x/DB.da", "/data/x/record_DB"])
          (settings_auto "/data/x") false).trace =
        [Event.file_exists ("/data/x" ++ "/R")] ++
          (if (world_with ["/data/x/R", "/data/x/DB", "/data/x/DB.da",
              "/data/x/record_DB"]).fs ("/data/x" ++ "/R") then
            [Event.file_exists ("/data/x" ++ "/T")] else []) ++
          [Event.file_exists ("/data/x" ++ "/DB")] ++
          (if (world_with ["/data/x/R", "/data/x/DB", "/data/x/DB.da",
              "/data/x/record_DB"]).fs ("/data/x" ++ "/DB") then []
            else [Event.file_exists ("/data/x" ++ "/DB.da")]) ++
          [Event.file_exists ("/data/x" ++ "/keyfile"),
           Event.construct (CtorCall.DBDatabase myparams false)] ∧
      (DatabaseBuilder.create build_all
          (world_with ["/data/x/R", "/data/x/DB", "/data/x/DB.da", "/data/x/record_DB"])
          (settings_auto "/data/x") false).result =
        (match (world_with ["/data/x/R", "/data/x/DB", "/data/x/DB.da",
            "/data/x/record_DB"]).ctor_raises (CtorCall.DBDatabase myparams false) with
         | none => Except.ok (some ⟨CtorCall.DBDatabase myparams false⟩)
         | some e => Except.error e) ∧
      myparams.find "m36_db_file" = some (OmSettingValue.str
        ("/data/x" ++ (if (world_with ["/data/x/R", "/data/x/DB", "/data/x/DB.da",
            "/data/x/record_DB"]).fs ("/data/x" ++ "/DB") then "/DB" else "/DB.da"))) ∧
      myparams.find "m36_heavyduty" = some (OmSettingValue.bool true) ∧
      myparams.find "m36_key_file" =
        (if (world_with ["/data/x/R", "/data/x/DB", "/data/x/DB.da",
            "/data/x/record_DB"]).fs ("/data/x" ++ "/keyfile") then
          some (OmSettingValue.str ("/data/x" ++ "/keyfile"))
         else (settings_auto "/data/x").find "m36_key_file") ∧
      ∀ key, key ∉ ["m36_db_file", "m36_heavyduty", "m36_key_file"] →
        myparams.find key = (settings_auto "/data/x").find key :=
  create_auto_DB_rules build_all
    (world_with ["/data/x/R", "/data/x/DB", "/data/x/DB.da", "/data/x/record_DB"])
    (settings_auto "/data/x") false "/data/x" (by decide) (by decide) (by decide) (by decide)
    (by decide)

/-- Claim C18: every value in `database_strings`, and so every value the lookup
returns, is the code of one of the eight enumerators, so the switch never
takes its `default:` label; and in a world where no constructor raises it, the
bare error "Unknown database type" is not the result of `create`. -/
theorem create_default_branch_unreachable (b : BuildConfig) (w : World)
    (params : OmSettings) (readonly : Bool)
    (hw : ∀ c, w.ctor_raises c ≠ some (OmError.OmInvalidArgumentError "Unknown database type")) :
    (∀ entry ∈ database_strings, ∃ t, static_cast entry.value = some t) ∧
      (∀ name, ∃ t, static_cast (map_string_to_value database_strings name) = some t) ∧
      (DatabaseBuilder.create b w params readonly).result ≠
        Except.error (OmError.OmInvalidArgumentError "Unknown database type") := by
  refine ⟨?_, static_cast_lookup, ?_⟩
  · intro entry he
    simp only [database_strings, List.mem_cons, List.mem_singleton, List.not_mem_nil,
      or_false] at he
    rcases he with rfl | rfl | rfl | rfl | rfl | rfl | rfl | rfl <;> exact ⟨_, rfl⟩
  cases hg : params.get "backend" with
  | error e0 =>
    rw [create_no_backend b w params readonly e0 hg]
    unfold OmSettings.get at hg
    split at hg
    · cases hg
    · cases hg
      intro h
      cases h
  | ok backend =>
    obtain ⟨r, hr, hpost⟩ := create_post b w params readonly backend hg
    rw [hr]
    unfold Post at hpost
    unfold check_and_return
    cases hf : r.2 with
    | next =>
      dsimp only
      split
      · intro h; cases h
      · intro h; cases h
    | break_ =>
      dsimp only
      split
      · intro h; cases h
      · intro h; cases h
    | throw e0 =>
      dsimp only
      intro h
      cases h
      rw [hf] at hpost
      rcases hpost with ⟨_, hown⟩ | ⟨before, c0, _, _, hr0, _⟩
      · rcases hown with h1 | ⟨_, h2⟩ | ⟨h3, _⟩
        · cases h1
        · exact bare_message_ne backend h2
        · obtain ⟨t, ht⟩ := static_cast_lookup backend
          rw [ht] at h3
          cases h3
      · exact hw c0 hr0

theorem create_default_branch_unreachable_witness :
    (∀ entry ∈ database_strings, ∃ t, static_cast entry.value = some t) ∧
      (∀ name, ∃ t, static_cast (map_string_to_value database_strings name) = some t) ∧
      (DatabaseBuilder.create build_all (world_with []) (settings_backend "Unknown") true).result ≠
        Except.error (OmError.OmInvalidArgumentError "Unknown database type") :=
  create_default_branch_unreachable build_all (world_with []) (settings_backend "Unknown") true
    (fun _ h => by cases h)

end Xapian
